import Mathlib

/-!
# ESP32 relay controller: relay registry, WebSocket command handler and HTTP routes

A shallow embedding of `src/main.cpp`.

* Text (an Arduino `String`, a `uint8_t` buffer) is a list of byte codes, `List Nat`.
* The global `relays[NUM_RELAYS]` array is a function on `Fin NUM_RELAYS`.
* Side effects are traces carried in the device state: `digitalWrite` calls and
  `ws.textAll` broadcasts.  `Serial` logging is not part of the model.
* A handler that answers one client (an HTTP route, the welcome on connect) returns its answer
  next to the device state.
* `deserializeJson` (ArduinoJson) is an external library: the handler takes the decoder
  as a parameter, and every theorem about the handler holds for every decoder.
-/

namespace MagicHome

set_option maxRecDepth 100000

/-! ## Text -/

/-- Bytes of an Arduino `String` or of an inbound buffer. -/
abbrev Text := List Nat

/-- Byte codes of a string literal. -/
def txt (s : String) : Text := s.toList.map Char.toNat

/-- Arduino `String(int)`: decimal rendering. -/
def intToText (n : Int) : Text := txt (toString n)

/-- Text of `state ? "true" : "false"`. -/
def boolText (b : Bool) : Text := if b then txt "true" else txt "false"

/-! ## Relay registry (`main.cpp` lines 15-54) -/

/-- The `Relay` struct. -/
structure Relay where
  pin : Int
  state : Bool
  name : Text
  description : Text
deriving DecidableEq, Repr

/-- The constant `NUM_RELAYS`. -/
abbrev NUM_RELAYS : Nat := 2

/-- Arduino pin level `HIGH`. -/
def HIGH : Nat := 1

/-- Arduino pin level `LOW`. -/
def LOW : Nat := 0

/-- Device state: the global `relays` array and the traces of the two output channels,
`digitalWrite(pin, level)` and `ws.textAll(text)`. -/
structure Device where
  relays : Fin NUM_RELAYS → Relay
  pinWrites : List (Int × Nat)
  broadcasts : List Text

/-- The static initialiser of `relays` (lines 26-29). -/
def configuredRelays : Fin NUM_RELAYS → Relay := fun i =>
  if i.val = 0 then
    { pin := 18, state := false, name := txt "Living Light",
      description := txt "Living room main lighting" }
  else
    { pin := 19, state := false, name := txt "Bedroom Light",
      description := txt "Master bedroom tube light" }

/-- Device right after start-up, before any trace is recorded. -/
def bootDevice : Device :=
  { relays := configuredRelays, pinWrites := [], broadcasts := [] }

/-- The array slot `relays[relayIndex]` for an in-range `int` index. -/
def slot (relayIndex : Int) (h : 0 ≤ relayIndex ∧ relayIndex < (NUM_RELAYS : Int)) :
    Fin NUM_RELAYS :=
  ⟨relayIndex.toNat, by omega⟩

/-- Source `digitalWrite(pin, level)` on a relay pin. -/
def digitalWrite (s : Device) (pin : Int) (level : Nat) : Device :=
  { s with pinWrites := s.pinWrites ++ [(pin, level)] }

/-- Source `setRelayState` (lines 38-46). -/
def setRelayState (s : Device) (relayIndex : Int) (state : Bool) : Device :=
  if h : 0 ≤ relayIndex ∧ relayIndex < (NUM_RELAYS : Int) then
    let i := slot relayIndex h
    let s1 : Device :=
      { s with relays := Function.update s.relays i { s.relays i with state := state } }
    digitalWrite s1 (s1.relays i).pin (if state then HIGH else LOW)
  else s

/-- Source `toggleRelay` (lines 48-54). -/
def toggleRelay (s : Device) (relayIndex : Int) : Device :=
  if h : 0 ≤ relayIndex ∧ relayIndex < (NUM_RELAYS : Int) then
    setRelayState s relayIndex (!(s.relays (slot relayIndex h)).state)
  else s

/-- Read of `relays[relayIndex]` guarded by the range test the code uses before every
array access; `none` outside `0 .. NUM_RELAYS - 1`. -/
def relayAt (s : Device) (relayIndex : Int) : Option Relay :=
  if h : 0 ≤ relayIndex ∧ relayIndex < (NUM_RELAYS : Int) then
    some (s.relays (slot relayIndex h))
  else none

/-! ## Status rendering (`getRelayStatusJson`, lines 56-73) -/

/-- One pass of the loop body of `getRelayStatusJson` for index `i`, appended to `json`. -/
def appendRelayJson (s : Device) (json : Text) (i : Fin NUM_RELAYS) : Text :=
  let json := if i.val > 0 then json ++ txt "," else json
  let json := json ++ txt "\x7b"
  let json := json ++ (txt "\"id\":" ++ intToText ((i.val : Int) + 1) ++ txt ",")
  let json := json ++ (txt "\"name\":\"" ++ (s.relays i).name ++ txt "\",")
  let json := json ++ (txt "\"description\":\"" ++ (s.relays i).description ++ txt "\",")
  let json := json ++ (txt "\"pin\":" ++ intToText (s.relays i).pin ++ txt ",")
  let json := json ++ (txt "\"state\":" ++ boolText (s.relays i).state)
  json ++ txt "\x7d"

/-- Source `getRelayStatusJson` (lines 56-73). -/
def getRelayStatusJson (s : Device) : Text :=
  (List.finRange NUM_RELAYS).foldl (appendRelayJson s) (txt "\x7b\"relays\":[") ++ txt "]\x7d"

/-! ## Message normalisation (lines 81-105) -/

/-- C `isspace` in the default locale: space, and `\t \n \v \f \r`. -/
def isspace (c : Nat) : Bool := c == 32 || (9 ≤ c && c ≤ 13)

/-- C `tolower` in the default locale. -/
def tolower (c : Nat) : Nat := if 65 ≤ c ∧ c ≤ 90 then c + 32 else c

/-- Source `String(buffer)` on the NUL-terminated copy of the frame payload (lines 82-87):
the text stops at the first zero byte. -/
def cString (data : List Nat) : Text := data.takeWhile (fun c => c != 0)

/-- Arduino `String::trim`: skips `isspace` characters from the front, then from the back. -/
def trim (t : Text) : Text := (t.dropWhile isspace).rdropWhile isspace

/-- Arduino `String::replace(c, "")` for a one-character pattern: every occurrence goes. -/
def removeAll (c : Nat) (t : Text) : Text := t.filter (fun x => x != c)

/-- The loop of lines 95-103: keeps the characters with `c >= 32 && c <= 126`. -/
def keepPrintable (t : Text) : Text := t.filter (fun c => 32 ≤ c && c ≤ 126)

/-- Arduino `String::toLowerCase`. -/
def toLowerCase (t : Text) : Text := t.map tolower

/-- The value of `msg` after lines 82-105. -/
def cleanMessage (data : List Nat) : Text :=
  toLowerCase (keepPrintable (removeAll 10 (removeAll 13 (trim (cString data)))))

/-! ## WebSocket command handler (`onWebSocketMessage`, lines 76-218) -/

/-- The fields of `AwsFrameInfo` the handler reads. -/
structure AwsFrameInfo where
  final : Bool
  index : Nat
  len : Nat
  opcode : Nat

/-- Opcode `WS_TEXT`. -/
def WS_TEXT : Nat := 1

/-- The test of line 79 on a frame carrying `len` bytes. -/
def singleTextFrame (info : AwsFrameInfo) (len : Nat) : Bool :=
  info.final && info.index == 0 && info.len == len && info.opcode == WS_TEXT

/-- What the handler reads from a successfully decoded `DynamicJsonDocument`:
`doc["action"] | ""`, `doc.containsKey("relay_id")` and `int relayId = doc["relay_id"]`. -/
structure JsonDocument where
  action : Text
  containsRelayId : Bool
  relayId : Int
deriving DecidableEq, Repr

/-- A JSON decoder: `none` when `deserializeJson` reports an error. -/
abbrev Decoder := Text → Option JsonDocument

/-- Source `ws.textAll(message)`. -/
def textAll (s : Device) (message : Text) : Device :=
  { s with broadcasts := s.broadcasts ++ [message] }

/-- The loop `for (int i = 0; i < NUM_RELAYS; i++) setRelayState(i, state);`. -/
def setAllRelays (s : Device) (state : Bool) : Device :=
  (List.range NUM_RELAYS).foldl (fun (d : Device) (i : Nat) => setRelayState d (i : Int) state) s

/-- The `helpMsg` of lines 208-214 for the cleaned text `msg`. -/
def helpMsg (msg : Text) : Text :=
  txt "\x7b\"status\":\"error\",\"message\":\"Unknown command\",\"command\":\"" ++ msg ++ txt "\","
    ++ txt "\"help\":\x7b"
    ++ txt "\"json_format\":\x7b"
    ++ txt "\"relay_control\":\"\x7b\\\"relay_id\\\":1,\\\"action\\\":\\\"on\\\"\x7d\","
    ++ txt "\"all_control\":\"\x7b\\\"action\\\":\\\"all_on\\\"\x7d\","
    ++ txt "\"status\":\"\x7b\\\"action\\\":\\\"status\\\"\x7d\""
    ++ txt "\x7d\x7d\x7d"

/-- The branch of lines 129-155: a command for the in-range relay id `relayId`. -/
def relayCommand (s : Device) (relayId : Int)
    (h : 1 ≤ relayId ∧ relayId ≤ (NUM_RELAYS : Int)) (action : Text) : Device :=
  let relayIndex := relayId - 1
  let i : Fin NUM_RELAYS := slot relayIndex (by omega)
  if action = txt "on" ∨ action = txt "turn_on" then
    textAll (setRelayState s relayIndex true)
      (txt "\x7b\"status\":\"success\",\"relay_id\":" ++ intToText relayId
        ++ txt ",\"action\":\"on\",\"state\":true\x7d")
  else if action = txt "off" ∨ action = txt "turn_off" then
    textAll (setRelayState s relayIndex false)
      (txt "\x7b\"status\":\"success\",\"relay_id\":" ++ intToText relayId
        ++ txt ",\"action\":\"off\",\"state\":false\x7d")
  else if action = txt "toggle" then
    let s1 := toggleRelay s relayIndex
    textAll s1
      (txt "\x7b\"status\":\"success\",\"relay_id\":" ++ intToText relayId
        ++ txt ",\"action\":\"toggle\",\"state\":" ++ boolText (s1.relays i).state ++ txt "\x7d")
  else if action = txt "status" ∨ action = txt "get_status" then
    textAll s
      (txt "\x7b\"relay_id\":" ++ intToText relayId ++ txt ",\"name\":\"" ++ (s.relays i).name
        ++ txt "\",\"description\":\"" ++ (s.relays i).description ++ txt "\",\"pin\":"
        ++ intToText (s.relays i).pin ++ txt ",\"state\":" ++ boolText (s.relays i).state
        ++ txt "\x7d")
  else
    textAll s (txt ("\x7b\"status\":\"error\",\"message\":\"Invalid action for relay\","
      ++ "\"valid_actions\":[\"on\",\"off\",\"toggle\",\"status\"]\x7d"))

/-- The branch of lines 117-197: the cleaned text decoded as the JSON document `doc`. -/
def jsonCommand (s : Device) (doc : JsonDocument) : Device :=
  let action := toLowerCase doc.action
  if doc.containsRelayId then
    let relayId := doc.relayId
    if h : 1 ≤ relayId ∧ relayId ≤ (NUM_RELAYS : Int) then
      relayCommand s relayId h action
    else
      textAll s (txt "\x7b\"status\":\"error\",\"message\":\"Invalid relay_id. Must be between 1 and "
        ++ intToText NUM_RELAYS ++ txt "\"\x7d")
  else if action = txt "get_all_status" ∨ action = txt "status" then
    textAll s (getRelayStatusJson s)
  else if action = txt "all_on" ∨ action = txt "turn_all_on" then
    textAll (setAllRelays s true)
      (txt "\x7b\"status\":\"success\",\"action\":\"all_on\",\"message\":\"All relays turned ON\"\x7d")
  else if action = txt "all_off" ∨ action = txt "turn_all_off" then
    textAll (setAllRelays s false)
      (txt "\x7b\"status\":\"success\",\"action\":\"all_off\",\"message\":\"All relays turned OFF\"\x7d")
  else
    textAll s (txt ("\x7b\"status\":\"error\",\"message\":\"Invalid action\","
      ++ "\"valid_actions\":[\"on\",\"off\",\"toggle\",\"status\",\"all_on\",\"all_off\"]\x7d"))

/-- Source `onWebSocketMessage` (lines 76-218), for the decoder `deserializeJson`, the frame
header `info` and the payload `data` (`len` is `data.length`). -/
def onWebSocketMessage (deserializeJson : Decoder) (s : Device) (info : AwsFrameInfo)
    (data : List Nat) : Device :=
  if singleTextFrame info data.length then
    let msg := cleanMessage data
    match deserializeJson msg with
    | some doc => jsonCommand s doc
    | none => textAll s (helpMsg msg)
  else s

/-! ## A concrete decoder for the closed examples

`deserializeJson` is a parameter of the handler.  The closed examples below instantiate it
with `flatJson`, a reader of flat JSON objects whose members are strings without escapes or
integer literals; only its answers on the texts of the examples are used. -/

/-- A member value read by `flatJson`. -/
inductive FlatValue where
  | str (t : Text)
  | int (n : Int)
deriving DecidableEq, Repr

/-- Skips blanks. -/
def skipBlanks (t : Text) : Text := t.dropWhile (fun c => c == 32)

/-- Reads the body of a string up to its closing quote; no escape sequences. -/
def readString : Text → Option (Text × Text)
  | [] => none
  | c :: rest =>
    if c = 34 then some ([], rest)
    else if c = 92 then none
    else (readString rest).map (fun p => (c :: p.1, p.2))

/-- Value of a run of decimal digits. -/
def digitsValue (ds : Text) : Nat := ds.foldl (fun acc d => 10 * acc + (d - 48)) 0

/-- Reads an unsigned run of digits that is not followed by a fraction or an exponent. -/
def readNat (t : Text) : Option (Nat × Text) :=
  let ds := t.takeWhile (fun c => 48 ≤ c && c ≤ 57)
  let rest := t.dropWhile (fun c => 48 ≤ c && c ≤ 57)
  if ds = [] then none
  else match rest with
    | 46 :: _ => none
    | 101 :: _ => none
    | _ => some (digitsValue ds, rest)

/-- Reads a string or an integer literal. -/
def readValue : Text → Option (FlatValue × Text)
  | 34 :: rest => (readString rest).map (fun p => (FlatValue.str p.1, p.2))
  | 45 :: rest => (readNat rest).map (fun p => (FlatValue.int (-(p.1 : Int)), p.2))
  | t => (readNat t).map (fun p => (FlatValue.int (p.1 : Int), p.2))

/-- Reads `"key":value` members separated by commas up to the closing brace, which must end
the text. -/
def readMembers : Nat → Text → List (Text × FlatValue) → Option (List (Text × FlatValue))
  | 0, _, _ => none
  | fuel + 1, t, acc =>
    match skipBlanks t with
    | 34 :: r =>
      match readString r with
      | some (key, r1) =>
        match skipBlanks r1 with
        | 58 :: r2 =>
          match readValue (skipBlanks r2) with
          | some (v, r3) =>
            match skipBlanks r3 with
            | 44 :: r4 => readMembers fuel r4 (acc ++ [(key, v)])
            | 125 :: r4 => if skipBlanks r4 = [] then some (acc ++ [(key, v)]) else none
            | _ => none
          | none => none
        | _ => none
      | none => none
    | _ => none

/-- Reads a flat object. -/
def readObject (t : Text) : Option (List (Text × FlatValue)) :=
  match skipBlanks t with
  | 123 :: r =>
    match skipBlanks r with
    | 125 :: r1 => if skipBlanks r1 = [] then some [] else none
    | _ => readMembers t.length r []
  | _ => none

/-- The three reads of the handler on a flat object: `doc["action"] | ""` is the string
member `action` or the empty text, `containsKey("relay_id")` is the presence of the member,
and the `int` conversion of `relay_id` is its value when it is an integer literal within
the range of `int`, and `0` otherwise. -/
def documentOf (members : List (Text × FlatValue)) : JsonDocument :=
  { action :=
      match members.lookup (txt "action") with
      | some (FlatValue.str t) => t
      | _ => []
    containsRelayId := (members.lookup (txt "relay_id")).isSome
    relayId :=
      match members.lookup (txt "relay_id") with
      | some (FlatValue.int n) => if -2147483648 ≤ n ∧ n ≤ 2147483647 then n else 0
      | _ => 0 }

/-- The decoder of the closed examples. -/
def flatJson : Decoder := fun t => (readObject t).map documentOf

/-- Header of a complete, unfragmented text frame of `len` bytes. -/
def textFrame (len : Nat) : AwsFrameInfo :=
  { final := true, index := 0, len := len, opcode := WS_TEXT }

/-- Delivery of the text `t` as one complete text frame, decoded with `flatJson`. -/
def receive (s : Device) (t : Text) : Device :=
  onWebSocketMessage flatJson s (textFrame t.length) t

/-! ## Connection events (`onEvent`, lines 220-250) -/

/-- Arduino `String::substring(left, right)`: the characters from `left` up to, not
including, `right`; the bounds are swapped when `left > right`, the result is empty when the
lower bound is not inside the text, and the upper bound is cut at the length. -/
def substring (t : Text) (left right : Nat) : Text :=
  let lo := if left > right then right else left
  let hi := if left > right then left else right
  if lo ≥ t.length then []
  else
    let hi := if hi > t.length then t.length else hi
    (t.drop lo).take (hi - lo)

/-- The expression `getRelayStatusJson().substring(10, getRelayStatusJson().length() - 1)`
of lines 228 and 366. The length is at least 13, so the unsigned subtraction does not wrap. -/
def relayArrayText (s : Device) : Text :=
  substring (getRelayStatusJson s) 10 ((getRelayStatusJson s).length - 1)

/-- The welcome text of line 228. -/
def welcomeText (s : Device) : Text :=
  txt "\x7b\"message\":\"Connected to ESP32\",\"relays\":" ++ relayArrayText s ++ txt "\x7d"

/-- The event types `onEvent` distinguishes. -/
inductive AwsEventType where
  | WS_EVT_CONNECT
  | WS_EVT_DISCONNECT
  | WS_EVT_DATA
  | WS_EVT_PONG
  | WS_EVT_ERROR
deriving DecidableEq, Repr

/-- Source `onEvent` (lines 220-250): the new device state and the text sent to the client
of the event with `client->text`, if any. -/
def onEvent (deserializeJson : Decoder) (s : Device) (type : AwsEventType)
    (info : AwsFrameInfo) (data : List Nat) : Device × Option Text :=
  match type with
  | AwsEventType.WS_EVT_CONNECT => (s, some (welcomeText s))
  | AwsEventType.WS_EVT_DATA => (onWebSocketMessage deserializeJson s info data, none)
  | _ => (s, none)

/-! ## HTTP routes (`setup`, lines 345-445) -/

/-- The constant `deviceName`. -/
def deviceName : Text := txt "ESP32_Controller"

/-- The constant `deviceType`. -/
def deviceType : Text := txt "home_automation"

/-- What the routes read from the `WiFi` object: `WiFi.localIP().toString()` and
`WiFi.macAddress()`. -/
structure WiFiStatus where
  localIP : Text
  macAddress : Text

/-- An answer given with `request->send(code, contentType, body)`. -/
structure HttpResponse where
  code : Nat
  contentType : Text
  body : Text
deriving DecidableEq, Repr

/-- The query parameters of an `AsyncWebServerRequest`, in order; `hasParam(name)` and
`getParam(name)->value()` are the lookup of the first parameter called `name`. -/
structure AsyncWebServerRequest where
  params : List (Text × Text)

/-- Arduino `String::toInt`, that is C `atol`: leading whitespace, an optional sign, then
decimal digits; `0` without digits; the value saturates at the bounds of a 32-bit `long`. -/
def toInt (t : Text) : Int :=
  let body := t.dropWhile isspace
  let negative := body.head? = some 45
  let unsigned := if body.head? = some 45 ∨ body.head? = some 43 then body.tail else body
  let magnitude : Int := (digitsValue (unsigned.takeWhile (fun c => 48 ≤ c && c ≤ 57)) : Nat)
  let value := if negative then -magnitude else magnitude
  if value < -2147483648 then -2147483648
  else if value > 2147483647 then 2147483647
  else value

/-- One pass of the loop of lines 352-354 for index `i`, appended to `html`. -/
def appendRelayHtml (s : Device) (html : Text) (i : Fin NUM_RELAYS) : Text :=
  html ++ (txt "<p>" ++ (s.relays i).name ++ txt " (GPIO " ++ intToText (s.relays i).pin
    ++ txt "): " ++ (if (s.relays i).state then txt "ON" else txt "OFF") ++ txt "</p>")

/-- Route `GET /` (lines 345-356). -/
def handleRoot (wifi : WiFiStatus) (s : Device) : HttpResponse :=
  let html := txt "<html><body><h1>ESP32 Home Controller</h1>"
  let html := html ++ (txt "<p>Device: " ++ deviceName ++ txt "</p>")
  let html := html ++ (txt "<p>IP: " ++ wifi.localIP ++ txt "</p>")
  let html := html ++ (txt "<p>WebSocket: ws://" ++ wifi.localIP ++ txt "/ws</p>")
  let html := html ++ txt "<h2>Relay Status:</h2>"
  let html := (List.finRange NUM_RELAYS).foldl (appendRelayHtml s) html
  let html := html ++ txt "</body></html>"
  { code := 200, contentType := txt "text/html", body := html }

/-- Route `GET /info` (lines 358-368). -/
def handleInfo (wifi : WiFiStatus) (s : Device) : HttpResponse :=
  let json := txt "\x7b"
  let json := json ++ (txt "\"device_name\":\"" ++ deviceName ++ txt "\",")
  let json := json ++ (txt "\"device_type\":\"" ++ deviceType ++ txt "\",")
  let json := json ++ (txt "\"ip_address\":\"" ++ wifi.localIP ++ txt "\",")
  let json := json ++ (txt "\"mac_address\":\"" ++ wifi.macAddress ++ txt "\",")
  let json := json ++ (txt "\"num_relays\":" ++ intToText NUM_RELAYS ++ txt ",")
  let json := json ++ (txt "\"relays\":" ++ relayArrayText s)
  let json := json ++ txt "\x7d"
  { code := 200, contentType := txt "application/json", body := json }

/-- Route `GET /api/relays` (lines 371-372). -/
def handleRelays (s : Device) : HttpResponse :=
  { code := 200, contentType := txt "application/json", body := getRelayStatusJson s }

/-- Route `GET /api/relay` (lines 374-393). -/
def handleRelay (s : Device) (request : AsyncWebServerRequest) : HttpResponse :=
  match request.params.lookup (txt "id") with
  | some idValue =>
    let relayId := toInt idValue
    if h : 1 ≤ relayId ∧ relayId ≤ (NUM_RELAYS : Int) then
      let index : Fin NUM_RELAYS := slot (relayId - 1) (by omega)
      let json := txt "\x7b"
      let json := json ++ (txt "\"id\":" ++ intToText relayId ++ txt ",")
      let json := json ++ (txt "\"name\":\"" ++ (s.relays index).name ++ txt "\",")
      let json := json ++ (txt "\"description\":\"" ++ (s.relays index).description ++ txt "\",")
      let json := json ++ (txt "\"pin\":" ++ intToText (s.relays index).pin ++ txt ",")
      let json := json ++ (txt "\"state\":" ++ boolText (s.relays index).state)
      let json := json ++ txt "\x7d"
      { code := 200, contentType := txt "application/json", body := json }
    else
      { code := 400, contentType := txt "application/json",
        body := txt "\x7b\"error\":\"Invalid relay ID. Must be between 1 and "
          ++ intToText NUM_RELAYS ++ txt "\"\x7d" }
  | none =>
    { code := 400, contentType := txt "application/json",
      body := txt "\x7b\"error\":\"Missing relay ID parameter\"\x7d" }

/-- The branch of lines 402-416 of route `POST /api/relay/control`: an in-range id. -/
def controlRelay (s : Device) (relayId : Int)
    (h : 1 ≤ relayId ∧ relayId ≤ (NUM_RELAYS : Int)) (action : Text) : Device × HttpResponse :=
  let index := relayId - 1
  let i : Fin NUM_RELAYS := slot index (by omega)
  if action = txt "on" ∨ action = txt "1" ∨ action = txt "true" then
    (setRelayState s index true,
      { code := 200, contentType := txt "application/json",
        body := txt "\x7b\"success\":true,\"relay\":" ++ intToText relayId
          ++ txt ",\"state\":true\x7d" })
  else if action = txt "off" ∨ action = txt "0" ∨ action = txt "false" then
    (setRelayState s index false,
      { code := 200, contentType := txt "application/json",
        body := txt "\x7b\"success\":true,\"relay\":" ++ intToText relayId
          ++ txt ",\"state\":false\x7d" })
  else if action = txt "toggle" then
    let s1 := toggleRelay s index
    (s1,
      { code := 200, contentType := txt "application/json",
        body := txt "\x7b\"success\":true,\"relay\":" ++ intToText relayId
          ++ txt ",\"state\":" ++ boolText (s1.relays i).state ++ txt "\x7d" })
  else
    (s, { code := 400, contentType := txt "application/json",
          body := txt "\x7b\"error\":\"Invalid action. Use: on, off, or toggle\"\x7d" })

/-- Route `POST /api/relay/control` (lines 395-422). -/
def handleRelayControl (s : Device) (request : AsyncWebServerRequest) : Device × HttpResponse :=
  match request.params.lookup (txt "id"), request.params.lookup (txt "action") with
  | some idValue, some actionValue =>
    let relayId := toInt idValue
    if h : 1 ≤ relayId ∧ relayId ≤ (NUM_RELAYS : Int) then
      controlRelay s relayId h (toLowerCase actionValue)
    else
      (s, { code := 400, contentType := txt "application/json",
            body := txt "\x7b\"error\":\"Invalid relay ID. Must be between 1 and "
              ++ intToText NUM_RELAYS ++ txt "\"\x7d" })
  | _, _ =>
    (s, { code := 400, contentType := txt "application/json",
          body := txt "\x7b\"error\":\"Missing required parameters: id and action\"\x7d" })

/-- Route `POST /api/relays/all` (lines 424-445). -/
def handleRelaysAll (s : Device) (request : AsyncWebServerRequest) : Device × HttpResponse :=
  match request.params.lookup (txt "action") with
  | some actionValue =>
    let action := toLowerCase actionValue
    if action = txt "on" then
      (setAllRelays s true,
        { code := 200, contentType := txt "application/json",
          body := txt "\x7b\"success\":true,\"message\":\"All relays turned ON\"\x7d" })
    else if action = txt "off" then
      (setAllRelays s false,
        { code := 200, contentType := txt "application/json",
          body := txt "\x7b\"success\":true,\"message\":\"All relays turned OFF\"\x7d" })
    else
      (s, { code := 400, contentType := txt "application/json",
            body := txt "\x7b\"error\":\"Invalid action. Use: on or off\"\x7d" })
  | none =>
    (s, { code := 400, contentType := txt "application/json",
          body := txt "\x7b\"error\":\"Missing action parameter\"\x7d" })

/-! ## Start-up and the event loop -/

/-- The constant `statusLED`. -/
def statusLED : Int := 2

/-- One pass of the loop of lines 263-269 for index `i`: `pinMode` (no trace),
`digitalWrite(relays[i].pin, LOW)`, then `relays[i].state = false`. -/
def initRelay (s : Device) (i : Fin NUM_RELAYS) : Device :=
  let s1 := digitalWrite s (s.relays i).pin LOW
  { s1 with relays := Function.update s1.relays i { s1.relays i with state := false } }

/-- One pass of the blink loop of lines 303-309. -/
def blinkOnce (s : Device) : Device :=
  digitalWrite (digitalWrite s statusLED HIGH) statusLED LOW

/-- Source `setup` (lines 252-474), as far as the device state goes: the relay loop, the
status LED, and after the Wi-Fi wait either three blinks and the registration of the
handlers, or, when `WiFi.status()` is not `WL_CONNECTED` at line 291, the endless error
blink from which `setup` never returns (`none`). -/
def setup (wifiConnected : Bool) (s : Device) : Option Device :=
  let s := (List.finRange NUM_RELAYS).foldl initRelay s
  let s := digitalWrite s statusLED LOW
  if wifiConnected then
    some ((List.range 3).foldl (fun (d : Device) (_ : Nat) => blinkOnce d) s)
  else none

/-- What the running device reacts to: a WebSocket event, or a request on one of the six
registered routes. -/
inductive Event where
  | webSocket (type : AwsEventType) (info : AwsFrameInfo) (data : List Nat)
  | getRoot
  | getInfo
  | getRelays
  | getRelay (request : AsyncWebServerRequest)
  | postRelayControl (request : AsyncWebServerRequest)
  | postRelaysAll (request : AsyncWebServerRequest)

/-- The device state after one event; the answers go to the clients. -/
def step (deserializeJson : Decoder) (s : Device) : Event → Device
  | Event.webSocket type info data => (onEvent deserializeJson s type info data).1
  | Event.getRoot => s
  | Event.getInfo => s
  | Event.getRelays => s
  | Event.getRelay _ => s
  | Event.postRelayControl request => (handleRelayControl s request).1
  | Event.postRelaysAll request => (handleRelaysAll s request).1

/-- The device state after a sequence of events. -/
def run (deserializeJson : Decoder) (s : Device) (events : List Event) : Device :=
  events.foldl (step deserializeJson) s

/-! ## Vocabulary of the specification -/

/-- The level last written to `pin` in a trace of `digitalWrite` calls. -/
def lastWritten (writes : List (Int × Nat)) (pin : Int) : Option Nat :=
  ((writes.filter (fun w => w.1 == pin)).getLast?).map Prod.snd

/-- A reply whose first member is `"status":"<status>"`. -/
abbrev hasStatus (status reply : Text) : Prop :=
  (txt "\x7b\"status\":\"" ++ status ++ txt "\"") <+: reply

/-- A reply in which a member called `message` occurs. -/
abbrev hasMessageField (reply : Text) : Prop := txt "\"message\":" <:+: reply

/-- The object of relay `id` in a snapshot, keys in the order id, name, description, pin,
state. -/
def relayObject (id : Int) (r : Relay) : Text :=
  txt "\x7b\"id\":" ++ intToText id ++ txt ",\"name\":\"" ++ r.name
    ++ txt "\",\"description\":\"" ++ r.description ++ txt "\",\"pin\":" ++ intToText r.pin
    ++ txt ",\"state\":" ++ boolText r.state ++ txt "\x7d"

/-- The array `[e_1,...,e_N]` of the relay objects in ascending id order, separated by
single commas. -/
def relayArray (s : Device) : Text :=
  txt "[" ++ (txt ",").intercalate
    ((List.finRange NUM_RELAYS).map (fun i => relayObject ((i.val : Int) + 1) (s.relays i)))
    ++ txt "]"

/-- The single-relay status reply with the keys relay_id, name, description, pin, state. -/
def relayStatusReply (k : Int) (r : Relay) : Text :=
  txt "\x7b\"relay_id\":" ++ intToText k ++ txt ",\"name\":\"" ++ r.name
    ++ txt "\",\"description\":\"" ++ r.description ++ txt "\",\"pin\":" ++ intToText r.pin
    ++ txt ",\"state\":" ++ boolText r.state ++ txt "\x7d"

/-- State and pin agree: the level last written to the pin of every relay is HIGH when the
relay is stored as on and LOW when it is stored as off. -/
def pinsAgree (s : Device) : Prop :=
  ∀ i, lastWritten s.pinWrites (s.relays i).pin = some (if (s.relays i).state then HIGH else LOW)

/-- Every relay has the pin, the name and the description of the static configuration. -/
def configurationKept (s : Device) : Prop :=
  ∀ i, (s.relays i).pin = (configuredRelays i).pin ∧
    (s.relays i).name = (configuredRelays i).name ∧
    (s.relays i).description = (configuredRelays i).description

/-- The device `setup` hands to the handlers when Wi-Fi is connected, from the boot
device: both relay pins written LOW, the status LED written LOW and blinked three times. -/
def readyDevice : Device :=
  (List.range 3).foldl (fun (d : Device) (_ : Nat) => blinkOnce d)
    (digitalWrite ((List.finRange NUM_RELAYS).foldl initRelay bootDevice) statusLED LOW)

/-- A sample run: relay 1 switched on over the WebSocket, all relays switched off over HTTP,
relay 2 toggled over HTTP, then a client connecting. -/
def sampleEvents : List Event :=
  [Event.webSocket AwsEventType.WS_EVT_DATA (textFrame 28)
      (txt "\x7b\"relay_id\":1,\"action\":\"on\"\x7d"),
    Event.postRelaysAll { params := [(txt "action", txt "off")] },
    Event.postRelayControl { params := [(txt "id", txt "2"), (txt "action", txt "toggle")] },
    Event.webSocket AwsEventType.WS_EVT_CONNECT (textFrame 0) []]

/-- The reply text of the specification for a targeted command,
`\x7b"status":"success","relay_id":k,"action":A,"state":S\x7d`. -/
def successReply (k : Int) (action : Text) (state : Bool) : Text :=
  txt "\x7b\"status\":\"success\",\"relay_id\":" ++ intToText k ++ txt ",\"action\":\""
    ++ action ++ txt "\",\"state\":" ++ boolText state ++ txt "\x7d"

/-! ## Relay registry: properties -/

/-- Effect of `setRelayState` on an in-range index, slot by slot. -/
theorem setRelayState_valid (s : Device) (relayIndex : Int) (v : Bool)
    (h : 0 ≤ relayIndex ∧ relayIndex < (NUM_RELAYS : Int)) :
    setRelayState s relayIndex v =
      { s with
        relays := Function.update s.relays (slot relayIndex h)
          { s.relays (slot relayIndex h) with state := v }
        pinWrites := s.pinWrites ++
          [((s.relays (slot relayIndex h)).pin, if v then HIGH else LOW)] } := by
  unfold setRelayState
  rw [dif_pos h]
  simp [digitalWrite]

/-- Lemma: `setRelayState` ignores an out-of-range index. -/
theorem setRelayState_invalid (s : Device) (relayIndex : Int) (v : Bool)
    (h : ¬ (0 ≤ relayIndex ∧ relayIndex < (NUM_RELAYS : Int))) :
    setRelayState s relayIndex v = s := by
  simp only [setRelayState, h, dite_false]

/-- Lemma: `toggleRelay` on an in-range index is `setRelayState` with the negated state. -/
theorem toggleRelay_valid (s : Device) (relayIndex : Int)
    (h : 0 ≤ relayIndex ∧ relayIndex < (NUM_RELAYS : Int)) :
    toggleRelay s relayIndex =
      setRelayState s relayIndex (!(s.relays (slot relayIndex h)).state) := by
  simp only [toggleRelay, h, and_self, dite_true]

/-- Lemma: `toggleRelay` ignores an out-of-range index. -/
theorem toggleRelay_invalid (s : Device) (relayIndex : Int)
    (h : ¬ (0 ≤ relayIndex ∧ relayIndex < (NUM_RELAYS : Int))) :
    toggleRelay s relayIndex = s := by
  simp only [toggleRelay, h, dite_false]

/-- C1: for every device state, every in-range relay index and every value `v`, the state
of that relay read back after `setRelayState` is `v`. -/
theorem setRelayState_read_back (s : Device) (relayIndex : Int) (v : Bool)
    (h : 0 ≤ relayIndex ∧ relayIndex < (NUM_RELAYS : Int)) :
    (relayAt (setRelayState s relayIndex v) relayIndex).map Relay.state = some v := by
  rw [setRelayState_valid s relayIndex v h]
  unfold relayAt
  rw [dif_pos h]
  simp

/-- Instance of C1: relay 2 (index 1) of the boot device set to on. -/
theorem setRelayState_read_back_witness :
    (relayAt (setRelayState bootDevice 1 true) 1).map Relay.state = some true :=
  setRelayState_read_back bootDevice 1 true (by decide)

/-- C2: for every device state and every index, two `toggleRelay` calls on the same index
restore the whole relay array, and on an in-range index one call negates the state of that
relay and leaves the other relays as they were. -/
theorem toggleRelay_involutive (s : Device) (relayIndex : Int) :
    (toggleRelay (toggleRelay s relayIndex) relayIndex).relays = s.relays ∧
    ∀ h : 0 ≤ relayIndex ∧ relayIndex < (NUM_RELAYS : Int),
      ((toggleRelay s relayIndex).relays (slot relayIndex h)).state
          = !(s.relays (slot relayIndex h)).state ∧
      ∀ j : Fin NUM_RELAYS, j ≠ slot relayIndex h →
        (toggleRelay s relayIndex).relays j = s.relays j := by
  by_cases h : 0 ≤ relayIndex ∧ relayIndex < (NUM_RELAYS : Int)
  · refine ⟨?_, fun _ => ⟨?_, ?_⟩⟩
    · rw [toggleRelay_valid _ relayIndex h, toggleRelay_valid s relayIndex h,
        setRelayState_valid _ relayIndex _ h, setRelayState_valid s relayIndex _ h]
      simp
    · rw [toggleRelay_valid s relayIndex h, setRelayState_valid s relayIndex _ h]
      simp
    · intro j hj
      rw [toggleRelay_valid s relayIndex h, setRelayState_valid s relayIndex _ h]
      simp [Function.update_noteq hj]
  · refine ⟨?_, fun h2 => absurd h2 h⟩
    rw [toggleRelay_invalid s relayIndex h, toggleRelay_invalid s relayIndex h]

/-- Instance of C2: toggling relay 1 of the boot device. -/
theorem toggleRelay_involutive_witness :
    (toggleRelay (toggleRelay bootDevice 0) 0).relays = bootDevice.relays ∧
    ((toggleRelay bootDevice 0).relays (slot 0 (by decide))).state
      = !(bootDevice.relays (slot 0 (by decide))).state :=
  ⟨(toggleRelay_involutive bootDevice 0).1,
    ((toggleRelay_involutive bootDevice 0).2 (by decide)).1⟩

/-- C3, as the code has it: for every device state, every out-of-range index and every value,
`setRelayState` and `toggleRelay` return the device exactly as it was: no relay changes, no
pin is written and nothing is broadcast. -/
theorem out_of_range_index_ignored (s : Device) (relayIndex : Int) (v : Bool)
    (h : ¬ (0 ≤ relayIndex ∧ relayIndex < (NUM_RELAYS : Int))) :
    setRelayState s relayIndex v = s ∧ toggleRelay s relayIndex = s :=
  ⟨setRelayState_invalid s relayIndex v h, toggleRelay_invalid s relayIndex h⟩

/-- Instance of C3 as amended: relay id 6 (index 5) on the boot device. -/
theorem out_of_range_index_ignored_witness :
    setRelayState bootDevice 5 true = bootDevice ∧ toggleRelay bootDevice 5 = bootDevice :=
  out_of_range_index_ignored bootDevice 5 true (by decide)

/-- C3 as stated fails: `setRelayState` is a `void` function, so the call with the
out-of-range index 5 hands nothing back. On the boot device it records no broadcast and no
pin write, and it leaves the caller with the same relay array and the same outbound messages
as the accepted call `setRelayState(0, false)`: the rejection is not reported. -/
theorem out_of_range_index_not_reported :
    (setRelayState bootDevice 5 false).broadcasts = [] ∧
    (setRelayState bootDevice 5 false).pinWrites = [] ∧
    (setRelayState bootDevice 5 false).relays = (setRelayState bootDevice 0 false).relays ∧
    (setRelayState bootDevice 5 false).broadcasts
      = (setRelayState bootDevice 0 false).broadcasts ∧
    (toggleRelay bootDevice 5).broadcasts = [] := by
  refine ⟨rfl, rfl, ?_, rfl, rfl⟩
  funext j
  fin_cases j <;> rfl

/-! ## WebSocket handler: properties -/

/-- The handler on a complete text frame whose cleaned text decodes to `doc`. -/
theorem onWebSocketMessage_json (dj : Decoder) (s : Device) (info : AwsFrameInfo)
    (data : List Nat) (doc : JsonDocument)
    (hframe : singleTextFrame info data.length = true)
    (hdec : dj (cleanMessage data) = some doc) :
    onWebSocketMessage dj s info data = jsonCommand s doc := by
  unfold onWebSocketMessage
  rw [if_pos hframe]
  simp only [hdec]

/-- The handler on a complete text frame whose cleaned text does not decode. -/
theorem onWebSocketMessage_not_json (dj : Decoder) (s : Device) (info : AwsFrameInfo)
    (data : List Nat)
    (hframe : singleTextFrame info data.length = true)
    (hdec : dj (cleanMessage data) = none) :
    onWebSocketMessage dj s info data = textAll s (helpMsg (cleanMessage data)) := by
  unfold onWebSocketMessage
  rw [if_pos hframe]
  simp only [hdec]

/-- A decoded command carrying an in-range `relay_id` runs the per-relay branch. -/
theorem jsonCommand_targeted (s : Device) (doc : JsonDocument)
    (hid : doc.containsRelayId = true)
    (hk : 1 ≤ doc.relayId ∧ doc.relayId ≤ (NUM_RELAYS : Int)) :
    jsonCommand s doc = relayCommand s doc.relayId hk (toLowerCase doc.action) := by
  unfold jsonCommand
  simp only [hid, if_true]
  rw [dif_pos hk]

/-- C4: for every decoder, device state and complete text frame whose cleaned text decodes
to a command with an in-range `relay_id` k: on/turn_on store true in relay k, off/turn_off
store false, toggle stores the negation of the prior state; the other relays are as before;
and the one broadcast added is the success reply for k with action on, off or toggle and the
state relay k holds after the command. -/
theorem targeted_command_effect (dj : Decoder) (s : Device) (info : AwsFrameInfo)
    (data : List Nat) (doc : JsonDocument)
    (hframe : singleTextFrame info data.length = true)
    (hdec : dj (cleanMessage data) = some doc)
    (hid : doc.containsRelayId = true)
    (hk : 1 ≤ doc.relayId ∧ doc.relayId ≤ (NUM_RELAYS : Int)) :
    let after := onWebSocketMessage dj s info data
    let i : Fin NUM_RELAYS := slot (doc.relayId - 1) (by omega)
    (toLowerCase doc.action = txt "on" ∨ toLowerCase doc.action = txt "turn_on" →
      after.relays = Function.update s.relays i { s.relays i with state := true } ∧
      after.broadcasts
        = s.broadcasts ++ [successReply doc.relayId (txt "on") (after.relays i).state]) ∧
    (toLowerCase doc.action = txt "off" ∨ toLowerCase doc.action = txt "turn_off" →
      after.relays = Function.update s.relays i { s.relays i with state := false } ∧
      after.broadcasts
        = s.broadcasts ++ [successReply doc.relayId (txt "off") (after.relays i).state]) ∧
    (toLowerCase doc.action = txt "toggle" →
      after.relays
        = Function.update s.relays i { s.relays i with state := !(s.relays i).state } ∧
      after.broadcasts
        = s.broadcasts ++ [successReply doc.relayId (txt "toggle") (after.relays i).state]) := by
  have hidx : 0 ≤ doc.relayId - 1 ∧ doc.relayId - 1 < (NUM_RELAYS : Int) := by omega
  intro after i
  have hafter : after = relayCommand s doc.relayId hk (toLowerCase doc.action) := by
    show onWebSocketMessage dj s info data = _
    rw [onWebSocketMessage_json dj s info data doc hframe hdec, jsonCommand_targeted s doc hid hk]
  refine ⟨fun h => ?_, fun h => ?_, fun h => ?_⟩
  · have hrun : after = textAll (setRelayState s (doc.relayId - 1) true)
        (txt "\x7b\"status\":\"success\",\"relay_id\":" ++ intToText doc.relayId
          ++ txt ",\"action\":\"on\",\"state\":true\x7d") := by
      rw [hafter]; unfold relayCommand; rw [if_pos h]
    rw [hrun, setRelayState_valid s _ true hidx]
    refine ⟨rfl, ?_⟩
    simp [textAll, successReply, boolText, txt, i]
  · have hno : ¬ (toLowerCase doc.action = txt "on" ∨ toLowerCase doc.action = txt "turn_on") := by
      rcases h with h | h <;> rw [h] <;> decide
    have hrun : after = textAll (setRelayState s (doc.relayId - 1) false)
        (txt "\x7b\"status\":\"success\",\"relay_id\":" ++ intToText doc.relayId
          ++ txt ",\"action\":\"off\",\"state\":false\x7d") := by
      rw [hafter]; unfold relayCommand; rw [if_neg hno, if_pos h]
    rw [hrun, setRelayState_valid s _ false hidx]
    refine ⟨rfl, ?_⟩
    simp [textAll, successReply, boolText, txt, i]
  · have hno : ¬ (toLowerCase doc.action = txt "on" ∨ toLowerCase doc.action = txt "turn_on") := by
      rw [h]; decide
    have hno2 : ¬ (toLowerCase doc.action = txt "off" ∨ toLowerCase doc.action = txt "turn_off") := by
      rw [h]; decide
    have hrun : after = textAll (toggleRelay s (doc.relayId - 1))
        (txt "\x7b\"status\":\"success\",\"relay_id\":" ++ intToText doc.relayId
          ++ txt ",\"action\":\"toggle\",\"state\":"
          ++ boolText ((toggleRelay s (doc.relayId - 1)).relays i).state ++ txt "\x7d") := by
      rw [hafter]; unfold relayCommand; rw [if_neg hno, if_neg hno2, if_pos h]
    rw [hrun, toggleRelay_valid s _ hidx, setRelayState_valid s _ _ hidx]
    refine ⟨rfl, ?_⟩
    simp [textAll, successReply, txt, i]

/-- Instance of C4: `\x7b"relay_id":1,"action":"on"\x7d` on the boot device. -/
theorem targeted_command_effect_witness :
    (receive bootDevice (txt "\x7b\"relay_id\":1,\"action\":\"on\"\x7d")).relays
      = Function.update bootDevice.relays (slot (1 - 1) (by decide))
          { bootDevice.relays (slot (1 - 1) (by decide)) with state := true } ∧
    (receive bootDevice (txt "\x7b\"relay_id\":1,\"action\":\"on\"\x7d")).broadcasts
      = bootDevice.broadcasts ++ [successReply 1 (txt "on")
          ((receive bootDevice (txt "\x7b\"relay_id\":1,\"action\":\"on\"\x7d")).relays
            (slot (1 - 1) (by decide))).state] :=
  (targeted_command_effect flatJson bootDevice (textFrame _)
    (txt "\x7b\"relay_id\":1,\"action\":\"on\"\x7d")
    { action := txt "on", containsRelayId := true, relayId := 1 }
    (by decide) (by decide) rfl (by decide)).1 (Or.inl (by decide))

/-- C5: for every decoder, device state and complete text frame whose cleaned text decodes
to a command with a `relay_id` outside `1 .. NUM_RELAYS`, whatever the action: no relay
changes, no pin is written, and the one broadcast added is the error stating the range
1 to 2. -/
theorem invalid_relay_id_rejected (dj : Decoder) (s : Device) (info : AwsFrameInfo)
    (data : List Nat) (doc : JsonDocument)
    (hframe : singleTextFrame info data.length = true)
    (hdec : dj (cleanMessage data) = some doc)
    (hid : doc.containsRelayId = true)
    (hk : ¬ (1 ≤ doc.relayId ∧ doc.relayId ≤ (NUM_RELAYS : Int))) :
    (onWebSocketMessage dj s info data).relays = s.relays ∧
    (onWebSocketMessage dj s info data).pinWrites = s.pinWrites ∧
    (onWebSocketMessage dj s info data).broadcasts = s.broadcasts ++
      [txt "\x7b\"status\":\"error\",\"message\":\"Invalid relay_id. Must be between 1 and 2\"\x7d"] := by
  rw [onWebSocketMessage_json dj s info data doc hframe hdec]
  unfold jsonCommand
  simp only [hid, if_true]
  rw [dif_neg hk]
  refine ⟨rfl, rfl, ?_⟩
  have hn : intToText (NUM_RELAYS : Int) = txt "2" := by decide
  rw [hn]
  simp [textAll, txt]

/-- Instance of C5: `\x7b"relay_id":5,"action":"on"\x7d` on the boot device. -/
theorem invalid_relay_id_rejected_witness :
    (receive bootDevice (txt "\x7b\"relay_id\":5,\"action\":\"on\"\x7d")).relays
      = bootDevice.relays ∧
    (receive bootDevice (txt "\x7b\"relay_id\":5,\"action\":\"on\"\x7d")).pinWrites
      = bootDevice.pinWrites ∧
    (receive bootDevice (txt "\x7b\"relay_id\":5,\"action\":\"on\"\x7d")).broadcasts
      = bootDevice.broadcasts ++
      [txt "\x7b\"status\":\"error\",\"message\":\"Invalid relay_id. Must be between 1 and 2\"\x7d"] :=
  invalid_relay_id_rejected flatJson bootDevice (textFrame _)
    (txt "\x7b\"relay_id\":5,\"action\":\"on\"\x7d")
    { action := txt "on", containsRelayId := true, relayId := 5 }
    (by decide) (by decide) rfl (by decide)

/-- A text without the character `q` that starts `a`, `q`, `rest` starts `a`. -/
theorem prefix_before_separator (pat a rest : Text) (q : Nat) (hq : q ∉ pat)
    (h : pat <+: a ++ q :: rest) : pat <+: a := by
  rcases List.prefix_or_prefix_of_prefix h (List.prefix_append a (q :: rest)) with h1 | h1
  · exact h1
  · obtain ⟨t, ht⟩ := h1
    subst ht
    have ht2 : t <+: q :: rest := (List.prefix_append_right_inj a).mp h
    cases t with
    | nil => simp
    | cons c t =>
      have hc : c = q := (List.cons_prefix_cons.mp ht2).1
      exact absurd (by simp [hc]) hq

/-- A text without the character `q` that occurs in `a`, `q`, `rest` occurs in `a` or in
`rest`. -/
theorem infix_around_separator (pat a rest : Text) (q : Nat) (hq : q ∉ pat)
    (h : pat <:+: a ++ q :: rest) : pat <:+: a ∨ pat <:+: rest := by
  induction a with
  | nil =>
    rw [List.nil_append, List.infix_cons_iff] at h
    rcases h with h | h
    · have := prefix_before_separator pat [] rest q hq (by simpa using h)
      exact Or.inl this.isInfix
    · exact Or.inr h
  | cons c a ih =>
    rw [List.cons_append, List.infix_cons_iff] at h
    rcases h with h | h
    · have := prefix_before_separator pat (c :: a) rest q hq (by simpa using h)
      exact Or.inl this.isInfix
    · rcases ih h with h2 | h2
      · exact Or.inl (List.infix_cons h2)
      · exact Or.inr h2

/-- The fixed part of the `Unknown command` reply names no `valid_actions`: the text occurs
in the reply exactly when it occurs in the echoed text. -/
theorem helpMsg_valid_actions (msg : Text) :
    txt "valid_actions" <:+: helpMsg msg ↔ txt "valid_actions" <:+: msg := by
  have hsplit : helpMsg msg
      = txt "\x7b\"status\":\"error\",\"message\":\"Unknown command\",\"command\":"
        ++ 34 :: (msg ++ 34 :: txt (",\"help\":\x7b\"json_format\":\x7b"
          ++ "\"relay_control\":\"\x7b\\\"relay_id\\\":1,\\\"action\\\":\\\"on\\\"\x7d\","
          ++ "\"all_control\":\"\x7b\\\"action\\\":\\\"all_on\\\"\x7d\","
          ++ "\"status\":\"\x7b\\\"action\\\":\\\"status\\\"\x7d\"\x7d\x7d\x7d")) := by
    simp [helpMsg, txt]
  constructor
  · intro h
    rw [hsplit] at h
    rcases infix_around_separator _ _ _ 34 (by decide) h with h1 | h1
    · exact absurd h1 (by decide)
    · rcases infix_around_separator _ _ _ 34 (by decide) h1 with h2 | h2
      · exact h2
      · exact absurd h2 (by decide)
  · intro h
    rw [hsplit]
    exact List.IsInfix.trans h
      (List.IsInfix.trans (List.prefix_append msg _).isInfix
        (List.IsInfix.trans (List.infix_cons (List.infix_refl _))
          (List.suffix_append _ _).isInfix))

/-- C6, as the code has it: for every decoder, device state and complete text frame whose
cleaned text does not decode, no relay changes, no pin is written, and the one broadcast
added is the `Unknown command` error in which the cleaned text is spliced verbatim after
`"command":"`, followed by a `help` object of three sample commands; the text
`valid_actions` occurs in that broadcast exactly when it occurs in the cleaned text. -/
theorem undecodable_text_echoed (dj : Decoder) (s : Device) (info : AwsFrameInfo)
    (data : List Nat)
    (hframe : singleTextFrame info data.length = true)
    (hdec : dj (cleanMessage data) = none) :
    (onWebSocketMessage dj s info data).relays = s.relays ∧
    (onWebSocketMessage dj s info data).pinWrites = s.pinWrites ∧
    (onWebSocketMessage dj s info data).broadcasts = s.broadcasts ++
      [txt "\x7b\"status\":\"error\",\"message\":\"Unknown command\",\"command\":\""
        ++ cleanMessage data
        ++ txt ("\",\"help\":\x7b\"json_format\":\x7b"
          ++ "\"relay_control\":\"\x7b\\\"relay_id\\\":1,\\\"action\\\":\\\"on\\\"\x7d\","
          ++ "\"all_control\":\"\x7b\\\"action\\\":\\\"all_on\\\"\x7d\","
          ++ "\"status\":\"\x7b\\\"action\\\":\\\"status\\\"\x7d\"\x7d\x7d\x7d")] ∧
    ∃ reply, (onWebSocketMessage dj s info data).broadcasts = s.broadcasts ++ [reply] ∧
      (txt "valid_actions" <:+: reply ↔ txt "valid_actions" <:+: cleanMessage data) := by
  rw [onWebSocketMessage_not_json dj s info data hframe hdec]
  refine ⟨rfl, rfl, ?_, helpMsg (cleanMessage data), rfl, helpMsg_valid_actions _⟩
  simp [textAll, helpMsg, txt]

/-- Instance of C6 as amended: the text `not json` on the boot device. -/
theorem undecodable_text_echoed_witness :
    (receive bootDevice (txt "not json")).relays = bootDevice.relays ∧
    (receive bootDevice (txt "not json")).pinWrites = bootDevice.pinWrites ∧
    (receive bootDevice (txt "not json")).broadcasts = bootDevice.broadcasts ++
      [txt "\x7b\"status\":\"error\",\"message\":\"Unknown command\",\"command\":\""
        ++ cleanMessage (txt "not json")
        ++ txt ("\",\"help\":\x7b\"json_format\":\x7b"
          ++ "\"relay_control\":\"\x7b\\\"relay_id\\\":1,\\\"action\\\":\\\"on\\\"\x7d\","
          ++ "\"all_control\":\"\x7b\\\"action\\\":\\\"all_on\\\"\x7d\","
          ++ "\"status\":\"\x7b\\\"action\\\":\\\"status\\\"\x7d\"\x7d\x7d\x7d")] ∧
    ∃ reply, (receive bootDevice (txt "not json")).broadcasts = bootDevice.broadcasts ++ [reply] ∧
      (txt "valid_actions" <:+: reply ↔ txt "valid_actions" <:+: cleanMessage (txt "not json")) :=
  undecodable_text_echoed flatJson bootDevice (textFrame _) (txt "not json")
    (by decide) (by decide)

/-- C6 as stated fails: for the text `not json` the broadcast is the `Unknown command` error
with `"command":"not json"` and a `help` object, and the text `valid_actions` occurs nowhere
in it. -/
theorem undecodable_text_reply_has_no_valid_actions :
    (receive bootDevice (txt "not json")).broadcasts =
      [txt ("\x7b\"status\":\"error\",\"message\":\"Unknown command\",\"command\":\"not json\","
        ++ "\"help\":\x7b\"json_format\":\x7b"
        ++ "\"relay_control\":\"\x7b\\\"relay_id\\\":1,\\\"action\\\":\\\"on\\\"\x7d\","
        ++ "\"all_control\":\"\x7b\\\"action\\\":\\\"all_on\\\"\x7d\","
        ++ "\"status\":\"\x7b\\\"action\\\":\\\"status\\\"\x7d\"\x7d\x7d\x7d")] ∧
    ∀ reply ∈ (receive bootDevice (txt "not json")).broadcasts,
      ¬ (txt "valid_actions" <:+: reply) := by
  decide

/-- C7, as the code has it: for every decoder, device state and complete text frame whose
cleaned text decodes to a command with an action that is not recognised for its form, no
relay changes, no pin is written, and the one broadcast added is a fixed error text that
lists the valid actions and does not depend on the action received: `Invalid action for
relay` with an in-range `relay_id`, `Invalid action` without `relay_id`. -/
theorem unrecognised_action_fixed_reply (dj : Decoder) (s : Device) (info : AwsFrameInfo)
    (data : List Nat) (doc : JsonDocument)
    (hframe : singleTextFrame info data.length = true)
    (hdec : dj (cleanMessage data) = some doc) :
    (doc.containsRelayId = true → 1 ≤ doc.relayId ∧ doc.relayId ≤ (NUM_RELAYS : Int) →
      toLowerCase doc.action ∉ [txt "on", txt "turn_on", txt "off", txt "turn_off",
        txt "toggle", txt "status", txt "get_status"] →
      onWebSocketMessage dj s info data = { s with broadcasts := s.broadcasts ++
        [txt ("\x7b\"status\":\"error\",\"message\":\"Invalid action for relay\","
          ++ "\"valid_actions\":[\"on\",\"off\",\"toggle\",\"status\"]\x7d")] }) ∧
    (doc.containsRelayId = false →
      toLowerCase doc.action ∉ [txt "get_all_status", txt "status", txt "all_on",
        txt "turn_all_on", txt "all_off", txt "turn_all_off"] →
      onWebSocketMessage dj s info data = { s with broadcasts := s.broadcasts ++
        [txt ("\x7b\"status\":\"error\",\"message\":\"Invalid action\",\"valid_actions\":"
          ++ "[\"on\",\"off\",\"toggle\",\"status\",\"all_on\",\"all_off\"]\x7d")] }) := by
  rw [onWebSocketMessage_json dj s info data doc hframe hdec]
  refine ⟨fun hid hk hact => ?_, fun hid hact => ?_⟩
  · rw [jsonCommand_targeted s doc hid hk]
    simp only [List.mem_cons, List.mem_singleton, List.not_mem_nil, or_false, not_or] at hact
    obtain ⟨h1, h2, h3, h4, h5, h6, h7⟩ := hact
    unfold relayCommand
    simp only [h1, h2, h3, h4, h5, h6, h7, or_self, if_false]
    rfl
  · simp only [List.mem_cons, List.mem_singleton, List.not_mem_nil, or_false, not_or] at hact
    obtain ⟨h1, h2, h3, h4, h5, h6⟩ := hact
    unfold jsonCommand
    simp only [hid, h1, h2, h3, h4, h5, h6, or_self, if_false, Bool.false_eq_true]
    rfl

/-- Instance of C7 as amended: the action `blink` for relay 1 on the boot device. -/
theorem unrecognised_action_fixed_reply_witness :
    receive bootDevice (txt "\x7b\"relay_id\":1,\"action\":\"blink\"\x7d")
      = { bootDevice with broadcasts := bootDevice.broadcasts ++
        [txt ("\x7b\"status\":\"error\",\"message\":\"Invalid action for relay\","
          ++ "\"valid_actions\":[\"on\",\"off\",\"toggle\",\"status\"]\x7d")] } :=
  (unrecognised_action_fixed_reply flatJson bootDevice (textFrame _)
    (txt "\x7b\"relay_id\":1,\"action\":\"blink\"\x7d")
    { action := txt "blink", containsRelayId := true, relayId := 1 }
    (by decide) (by decide)).1 rfl (by decide) (by decide)

/-- C7 as stated fails: for the unrecognised action `blink`, with relay 1 and without a
relay, the broadcast is the fixed error text, in which `blink` occurs nowhere. -/
theorem unrecognised_action_not_echoed :
    (receive bootDevice (txt "\x7b\"relay_id\":1,\"action\":\"blink\"\x7d")).broadcasts =
      [txt ("\x7b\"status\":\"error\",\"message\":\"Invalid action for relay\","
        ++ "\"valid_actions\":[\"on\",\"off\",\"toggle\",\"status\"]\x7d")] ∧
    (∀ reply ∈ (receive bootDevice (txt "\x7b\"relay_id\":1,\"action\":\"blink\"\x7d")).broadcasts,
      ¬ (txt "blink" <:+: reply)) ∧
    (receive bootDevice (txt "\x7b\"action\":\"blink\"\x7d")).broadcasts =
      [txt ("\x7b\"status\":\"error\",\"message\":\"Invalid action\",\"valid_actions\":"
        ++ "[\"on\",\"off\",\"toggle\",\"status\",\"all_on\",\"all_off\"]\x7d")] ∧
    (∀ reply ∈ (receive bootDevice (txt "\x7b\"action\":\"blink\"\x7d")).broadcasts,
      ¬ (txt "blink" <:+: reply)) := by
  decide

/-! ## Normalisation: case and padding -/

/-- Lemma: `tolower` never produces or removes the terminator byte. -/
theorem tolower_ne_zero (c : Nat) : (tolower c != 0) = (c != 0) := by
  unfold tolower
  split
  · rw [Bool.eq_iff_iff]; simp; omega
  · rfl

/-- Lemma: `tolower` maps no character onto or away from a given control character. -/
theorem tolower_ne_control (c k : Nat) (hk : k < 32) : (tolower c != k) = (c != k) := by
  unfold tolower
  split
  · rw [Bool.eq_iff_iff]; simp; omega
  · rfl

/-- Lemma: `tolower` preserves `isspace`. -/
theorem isspace_tolower (c : Nat) : isspace (tolower c) = isspace c := by
  unfold tolower isspace
  split
  · rw [Bool.eq_iff_iff]; simp; omega
  · rfl

/-- Lemma: `tolower` preserves membership in the printable range. -/
theorem printable_tolower (c : Nat) :
    (decide (32 ≤ tolower c) && decide (tolower c ≤ 126))
      = (decide (32 ≤ c) && decide (c ≤ 126)) := by
  unfold tolower
  split
  · rw [Bool.eq_iff_iff]; simp; omega
  · rfl

/-- Lemma: `cString` commutes with lower-casing. -/
theorem cString_map_tolower (x : List Nat) :
    cString (x.map tolower) = (cString x).map tolower := by
  unfold cString
  rw [List.takeWhile_map]
  congr 2
  funext c
  exact tolower_ne_zero c

/-- Lemma: `trim` commutes with lower-casing. -/
theorem trim_map_tolower (x : Text) : trim (x.map tolower) = (trim x).map tolower := by
  have hp : isspace ∘ tolower = isspace := funext isspace_tolower
  unfold trim List.rdropWhile
  rw [List.dropWhile_map, hp, ← List.map_reverse, List.dropWhile_map, hp, List.map_reverse]

/-- Lemma: `removeAll` of a control character commutes with lower-casing. -/
theorem removeAll_map_tolower (k : Nat) (hk : k < 32) (x : Text) :
    removeAll k (x.map tolower) = (removeAll k x).map tolower := by
  unfold removeAll
  rw [List.filter_map]
  congr 2
  funext c
  exact tolower_ne_control c k hk

/-- Lemma: `keepPrintable` commutes with lower-casing. -/
theorem keepPrintable_map_tolower (x : Text) :
    keepPrintable (x.map tolower) = (keepPrintable x).map tolower := by
  unfold keepPrintable
  rw [List.filter_map]
  congr 2
  funext c
  exact printable_tolower c

/-- The cleaned text is a function of the lower-cased payload. -/
theorem cleanMessage_eq_of_lower (x : List Nat) :
    cleanMessage x
      = keepPrintable (removeAll 10 (removeAll 13 (trim (cString (x.map tolower))))) := by
  unfold cleanMessage toLowerCase
  rw [cString_map_tolower, trim_map_tolower, removeAll_map_tolower 13 (by decide),
    removeAll_map_tolower 10 (by decide), keepPrintable_map_tolower]

/-- A whitespace character is not the terminator byte. -/
theorem isspace_ne_zero (c : Nat) (h : isspace c = true) : (c != 0) = true := by
  unfold isspace at h
  simp at h
  simp
  omega

/-- Leading whitespace stays in front of the C string. -/
theorem cString_pad_left (pre x : List Nat) (hpre : ∀ c ∈ pre, isspace c = true) :
    cString (pre ++ x) = pre ++ cString x := by
  induction pre with
  | nil => rfl
  | cons c pre ih =>
    have hc : (c != 0) = true := isspace_ne_zero c (hpre c (List.mem_cons_self c pre))
    have ih2 := ih (fun d hd => hpre d (List.mem_cons_of_mem c hd))
    unfold cString at ih2 ⊢
    rw [List.cons_append, List.takeWhile_cons, hc]
    simp only [if_true, List.cons_append]
    rw [ih2]

/-- Trailing whitespace adds at most whitespace to the C string. -/
theorem cString_pad_right (x post : List Nat) (hpost : ∀ c ∈ post, isspace c = true) :
    ∃ tail : List Nat, (∀ c ∈ tail, isspace c = true) ∧ cString (x ++ post) = cString x ++ tail := by
  induction x with
  | nil =>
    refine ⟨post, hpost, ?_⟩
    have h := cString_pad_left post [] hpost
    simpa [cString] using h
  | cons c x ih =>
    obtain ⟨tail, htail, hx⟩ := ih
    by_cases hc : (c != 0) = true
    · refine ⟨tail, htail, ?_⟩
      unfold cString at hx ⊢
      rw [List.cons_append, List.takeWhile_cons, List.takeWhile_cons, hc]
      simp only [if_true, List.cons_append]
      rw [hx]
    · refine ⟨[], fun d hd => absurd hd (List.not_mem_nil d), ?_⟩
      unfold cString
      rw [List.cons_append, List.takeWhile_cons, List.takeWhile_cons]
      simp [hc]

/-- Leading whitespace is skipped by `dropWhile isspace`. -/
theorem dropWhile_pad_left (pre x : Text) (hpre : ∀ c ∈ pre, isspace c = true) :
    (pre ++ x).dropWhile isspace = x.dropWhile isspace := by
  induction pre with
  | nil => rfl
  | cons c pre ih =>
    rw [List.cons_append, List.dropWhile_cons, hpre c (List.mem_cons_self c pre)]
    simp only [if_true]
    exact ih (fun d hd => hpre d (List.mem_cons_of_mem c hd))

/-- Trailing whitespace is skipped by `rdropWhile isspace`. -/
theorem rdropWhile_pad_right (x post : Text) (hpost : ∀ c ∈ post, isspace c = true) :
    (x ++ post).rdropWhile isspace = x.rdropWhile isspace := by
  unfold List.rdropWhile
  rw [List.reverse_append,
    dropWhile_pad_left post.reverse x.reverse (fun c hc => hpost c (List.mem_reverse.mp hc))]

/-- Lemma: `trim` removes whitespace padding. -/
theorem trim_pad (pre x post : Text) (hpre : ∀ c ∈ pre, isspace c = true)
    (hpost : ∀ c ∈ post, isspace c = true) : trim (pre ++ x ++ post) = trim x := by
  unfold trim
  rw [List.append_assoc, dropWhile_pad_left pre (x ++ post) hpre]
  induction x with
  | nil =>
    have h : post.dropWhile isspace = [] := List.dropWhile_eq_nil_iff.mpr hpost
    simp [h]
  | cons c x ih =>
    by_cases hc : isspace c = true
    · rw [List.cons_append, List.dropWhile_cons, List.dropWhile_cons, hc]
      simpa using ih
    · rw [List.cons_append, List.dropWhile_cons, List.dropWhile_cons]
      simp only [hc, if_false]
      exact rdropWhile_pad_right (c :: x) post hpost

/-- The cleaned text ignores whitespace padding of the payload. -/
theorem cleanMessage_pad (pre x post : List Nat) (hpre : ∀ c ∈ pre, isspace c = true)
    (hpost : ∀ c ∈ post, isspace c = true) :
    cleanMessage (pre ++ x ++ post) = cleanMessage x := by
  obtain ⟨tail, htail, hx⟩ := cString_pad_right x post hpost
  unfold cleanMessage
  rw [List.append_assoc, cString_pad_left pre (x ++ post) hpre, hx, ← List.append_assoc,
    trim_pad pre (cString x) tail hpre htail]

/-- C8: for every decoder and device state, a complete text frame whose payload differs
from another one only by the case of ASCII letters and by whitespace added in front and
behind is handled exactly as the other one: same relay states, same pin writes, same
broadcast. -/
theorem handling_ignores_case_and_padding (dj : Decoder) (s : Device)
    (info info2 : AwsFrameInfo) (data data2 pre post : List Nat)
    (hpre : ∀ c ∈ pre, isspace c = true) (hpost : ∀ c ∈ post, isspace c = true)
    (hcase : data2.map tolower = (pre ++ data ++ post).map tolower)
    (hframe : singleTextFrame info data.length = true)
    (hframe2 : singleTextFrame info2 data2.length = true) :
    onWebSocketMessage dj s info2 data2 = onWebSocketMessage dj s info data := by
  have hclean : cleanMessage data2 = cleanMessage data := by
    rw [cleanMessage_eq_of_lower data2, hcase, ← cleanMessage_eq_of_lower,
      cleanMessage_pad pre data post hpre hpost]
  unfold onWebSocketMessage
  rw [if_pos hframe, if_pos hframe2, hclean]

/-- Instance of C8: `  ON  ` is handled as `on` is. -/
theorem handling_ignores_case_and_padding_witness :
    onWebSocketMessage flatJson bootDevice (textFrame 6) (txt "  ON  ")
      = onWebSocketMessage flatJson bootDevice (textFrame 2) (txt "on") :=
  handling_ignores_case_and_padding flatJson bootDevice (textFrame 2) (textFrame 6)
    (txt "on") (txt "  ON  ") (txt "  ") (txt "  ") (by decide) (by decide) (by decide)
    (by decide) (by decide)

/-! ## Commands on all relays -/

/-- Effect of the loop over all relays: every relay holds `v`, and one write per relay is
recorded, in ascending index order, each on the pin of its relay. -/
theorem setAllRelays_eq (s : Device) (v : Bool) :
    setAllRelays s v =
      { s with
        relays := fun i => { s.relays i with state := v }
        pinWrites := s.pinWrites ++ (List.finRange NUM_RELAYS).map
          (fun i => ((s.relays i).pin, if v then HIGH else LOW)) } := by
  have h0 : 0 ≤ ((0 : Nat) : Int) ∧ ((0 : Nat) : Int) < (NUM_RELAYS : Int) := by decide
  have h1 : 0 ≤ ((1 : Nat) : Int) ∧ ((1 : Nat) : Int) < (NUM_RELAYS : Int) := by decide
  have hr : List.range NUM_RELAYS = [0, 1] := by decide
  have hf : List.finRange NUM_RELAYS = [0, 1] := by decide
  have hs0 : slot ((0 : Nat) : Int) h0 = 0 := rfl
  have hs1 : slot ((1 : Nat) : Int) h1 = 1 := rfl
  unfold setAllRelays
  rw [hr, hf]
  simp only [List.foldl_cons, List.foldl_nil]
  rw [setRelayState_valid _ _ v h1, setRelayState_valid s _ v h0, hs0, hs1]
  have hrel : Function.update
        (Function.update s.relays 0 { s.relays 0 with state := v }) 1
        { Function.update s.relays 0 { s.relays 0 with state := v } 1 with state := v }
      = fun i => { s.relays i with state := v } := by
    funext j
    fin_cases j <;> simp
  simp only [hrel]
  simp

/-- A decoded command without `relay_id` whose action is `all_on` or `turn_all_on`. -/
theorem jsonCommand_all_on (s : Device) (doc : JsonDocument)
    (hid : doc.containsRelayId = false)
    (hact : toLowerCase doc.action ∈ [txt "all_on", txt "turn_all_on"]) :
    jsonCommand s doc = textAll (setAllRelays s true)
      (txt "\x7b\"status\":\"success\",\"action\":\"all_on\",\"message\":\"All relays turned ON\"\x7d") := by
  have hno : ¬ (toLowerCase doc.action = txt "get_all_status"
      ∨ toLowerCase doc.action = txt "status") := by
    simp only [List.mem_cons, List.mem_singleton, List.not_mem_nil, or_false] at hact
    rcases hact with h | h <;> rw [h] <;> decide
  have hyes : toLowerCase doc.action = txt "all_on"
      ∨ toLowerCase doc.action = txt "turn_all_on" := by
    simpa only [List.mem_cons, List.mem_singleton, List.not_mem_nil, or_false] using hact
  unfold jsonCommand
  simp only [hid, Bool.false_eq_true, if_false]
  rw [if_neg hno, if_pos hyes]

/-- A decoded command without `relay_id` whose action is `all_off` or `turn_all_off`. -/
theorem jsonCommand_all_off (s : Device) (doc : JsonDocument)
    (hid : doc.containsRelayId = false)
    (hact : toLowerCase doc.action ∈ [txt "all_off", txt "turn_all_off"]) :
    jsonCommand s doc = textAll (setAllRelays s false)
      (txt "\x7b\"status\":\"success\",\"action\":\"all_off\",\"message\":\"All relays turned OFF\"\x7d") := by
  have hno : ¬ (toLowerCase doc.action = txt "get_all_status"
      ∨ toLowerCase doc.action = txt "status") := by
    simp only [List.mem_cons, List.mem_singleton, List.not_mem_nil, or_false] at hact
    rcases hact with h | h <;> rw [h] <;> decide
  have hno2 : ¬ (toLowerCase doc.action = txt "all_on"
      ∨ toLowerCase doc.action = txt "turn_all_on") := by
    simp only [List.mem_cons, List.mem_singleton, List.not_mem_nil, or_false] at hact
    rcases hact with h | h <;> rw [h] <;> decide
  have hyes : toLowerCase doc.action = txt "all_off"
      ∨ toLowerCase doc.action = txt "turn_all_off" := by
    simpa only [List.mem_cons, List.mem_singleton, List.not_mem_nil, or_false] using hact
  unfold jsonCommand
  simp only [hid, Bool.false_eq_true, if_false]
  rw [if_neg hno, if_neg hno2, if_pos hyes]

/-- C9: for every decoder and device state, after a complete text frame decoded to `all_on`
or `turn_all_on` without `relay_id` every relay holds true and the success reply is
broadcast; a second such frame leaves the relay array identical and broadcasts the same
reply. The same holds for `all_off` or `turn_all_off` with every relay holding false. -/
theorem all_on_idempotent (dj : Decoder) (s : Device) (info info2 : AwsFrameInfo)
    (data data2 : List Nat) (doc doc2 : JsonDocument)
    (hframe : singleTextFrame info data.length = true)
    (hdec : dj (cleanMessage data) = some doc)
    (hid : doc.containsRelayId = false)
    (hframe2 : singleTextFrame info2 data2.length = true)
    (hdec2 : dj (cleanMessage data2) = some doc2)
    (hid2 : doc2.containsRelayId = false) :
    let once := onWebSocketMessage dj s info data
    let twice := onWebSocketMessage dj once info2 data2
    (toLowerCase doc.action ∈ [txt "all_on", txt "turn_all_on"] →
      toLowerCase doc2.action ∈ [txt "all_on", txt "turn_all_on"] →
      (∀ i, (once.relays i).state = true) ∧ twice.relays = once.relays ∧
      once.broadcasts = s.broadcasts ++
        [txt "\x7b\"status\":\"success\",\"action\":\"all_on\",\"message\":\"All relays turned ON\"\x7d"] ∧
      twice.broadcasts = once.broadcasts ++
        [txt "\x7b\"status\":\"success\",\"action\":\"all_on\",\"message\":\"All relays turned ON\"\x7d"]) ∧
    (toLowerCase doc.action ∈ [txt "all_off", txt "turn_all_off"] →
      toLowerCase doc2.action ∈ [txt "all_off", txt "turn_all_off"] →
      (∀ i, (once.relays i).state = false) ∧ twice.relays = once.relays ∧
      once.broadcasts = s.broadcasts ++
        [txt "\x7b\"status\":\"success\",\"action\":\"all_off\",\"message\":\"All relays turned OFF\"\x7d"] ∧
      twice.broadcasts = once.broadcasts ++
        [txt "\x7b\"status\":\"success\",\"action\":\"all_off\",\"message\":\"All relays turned OFF\"\x7d"]) := by
  intro once twice
  have hone : once = jsonCommand s doc := onWebSocketMessage_json dj s info data doc hframe hdec
  have htwo : twice = jsonCommand once doc2 :=
    onWebSocketMessage_json dj once info2 data2 doc2 hframe2 hdec2
  refine ⟨fun h h2 => ?_, fun h h2 => ?_⟩
  · rw [jsonCommand_all_on once doc2 hid2 h2] at htwo
    rw [jsonCommand_all_on s doc hid h] at hone
    rw [htwo, setAllRelays_eq once true, hone, setAllRelays_eq s true]
    exact ⟨fun _ => rfl, rfl, rfl, rfl⟩
  · rw [jsonCommand_all_off once doc2 hid2 h2] at htwo
    rw [jsonCommand_all_off s doc hid h] at hone
    rw [htwo, setAllRelays_eq once false, hone, setAllRelays_eq s false]
    exact ⟨fun _ => rfl, rfl, rfl, rfl⟩

/-- Instance of C9: `\x7b"action":"all_on"\x7d` twice on the boot device. -/
theorem all_on_idempotent_witness :
    (∀ i, ((receive bootDevice (txt "\x7b\"action\":\"all_on\"\x7d")).relays i).state = true) ∧
    (receive (receive bootDevice (txt "\x7b\"action\":\"all_on\"\x7d"))
        (txt "\x7b\"action\":\"all_on\"\x7d")).relays
      = (receive bootDevice (txt "\x7b\"action\":\"all_on\"\x7d")).relays ∧
    (receive bootDevice (txt "\x7b\"action\":\"all_on\"\x7d")).broadcasts
      = bootDevice.broadcasts ++
        [txt "\x7b\"status\":\"success\",\"action\":\"all_on\",\"message\":\"All relays turned ON\"\x7d"] ∧
    (receive (receive bootDevice (txt "\x7b\"action\":\"all_on\"\x7d"))
        (txt "\x7b\"action\":\"all_on\"\x7d")).broadcasts
      = (receive bootDevice (txt "\x7b\"action\":\"all_on\"\x7d")).broadcasts ++
        [txt "\x7b\"status\":\"success\",\"action\":\"all_on\",\"message\":\"All relays turned ON\"\x7d"] :=
  (all_on_idempotent flatJson bootDevice (textFrame _) (textFrame _)
    (txt "\x7b\"action\":\"all_on\"\x7d") (txt "\x7b\"action\":\"all_on\"\x7d")
    { action := txt "all_on", containsRelayId := false, relayId := 0 }
    { action := txt "all_on", containsRelayId := false, relayId := 0 }
    (by decide) (by decide) rfl (by decide) (by decide) rfl).1 (by decide) (by decide)

/-- C10: for every decoder, device state and complete text frame decoded to an all-on or
all-off command, the handler records exactly one `digitalWrite` per relay, in ascending
index order, on the pin of that relay and with the commanded level (HIGH for on, LOW for
off); and every `setRelayState` and `toggleRelay` call on an in-range index records exactly
one `digitalWrite`, on the pin of that relay, with the level of the state it stores. -/
theorem physical_writes (dj : Decoder) (s : Device) (info : AwsFrameInfo)
    (data : List Nat) (doc : JsonDocument)
    (hframe : singleTextFrame info data.length = true)
    (hdec : dj (cleanMessage data) = some doc)
    (hid : doc.containsRelayId = false) :
    (toLowerCase doc.action ∈ [txt "all_on", txt "turn_all_on"] →
      (onWebSocketMessage dj s info data).pinWrites
        = s.pinWrites ++ (List.finRange NUM_RELAYS).map (fun i => ((s.relays i).pin, HIGH))) ∧
    (toLowerCase doc.action ∈ [txt "all_off", txt "turn_all_off"] →
      (onWebSocketMessage dj s info data).pinWrites
        = s.pinWrites ++ (List.finRange NUM_RELAYS).map (fun i => ((s.relays i).pin, LOW))) ∧
    ∀ (relayIndex : Int) (h : 0 ≤ relayIndex ∧ relayIndex < (NUM_RELAYS : Int)),
      (∀ v : Bool, (setRelayState s relayIndex v).pinWrites
        = s.pinWrites ++ [((s.relays (slot relayIndex h)).pin, if v then HIGH else LOW)]) ∧
      (toggleRelay s relayIndex).pinWrites
        = s.pinWrites ++ [((s.relays (slot relayIndex h)).pin,
            if (s.relays (slot relayIndex h)).state then LOW else HIGH)] := by
  rw [onWebSocketMessage_json dj s info data doc hframe hdec]
  refine ⟨fun h => ?_, fun h => ?_, fun relayIndex h => ⟨fun v => ?_, ?_⟩⟩
  · rw [jsonCommand_all_on s doc hid h, setAllRelays_eq s true]
    rfl
  · rw [jsonCommand_all_off s doc hid h, setAllRelays_eq s false]
    rfl
  · rw [setRelayState_valid s relayIndex v h]
  · rw [toggleRelay_valid s relayIndex h, setRelayState_valid s relayIndex _ h]
    cases (s.relays (slot relayIndex h)).state <;> rfl

/-- Instance of C10: `\x7b"action":"all_off"\x7d` on the boot device writes LOW to pin 18,
then LOW to pin 19. -/
theorem physical_writes_witness :
    (receive bootDevice (txt "\x7b\"action\":\"all_off\"\x7d")).pinWrites
      = bootDevice.pinWrites
        ++ (List.finRange NUM_RELAYS).map (fun i => ((bootDevice.relays i).pin, LOW)) :=
  (physical_writes flatJson bootDevice (textFrame _) (txt "\x7b\"action\":\"all_off\"\x7d")
    { action := txt "all_off", containsRelayId := false, relayId := 0 }
    (by decide) (by decide) rfl).2.1 (by decide)

/-! ## Status reads and renderings -/

/-- Shape of the snapshot text: the `relays` member holding the relay array. -/
theorem getRelayStatusJson_eq (s : Device) :
    getRelayStatusJson s = txt "\x7b\"relays\":" ++ relayArray s ++ txt "\x7d" := by
  have hf : List.finRange NUM_RELAYS = [0, 1] := by decide
  unfold getRelayStatusJson relayArray
  rw [hf]
  simp [appendRelayJson, relayObject, txt, List.intercalate]

/-- C13: for every device state, `getRelayStatusJson` renders exactly
`\x7b"relays":[e_1,...,e_N]\x7d`, where e_k is the object of relay id k with the keys id, name,
description, pin, state in this order, the objects stand in ascending id order separated by
single commas, and state is the text true or false of the stored state. -/
theorem getRelayStatusJson_renders_snapshot (s : Device) :
    getRelayStatusJson s
      = txt "\x7b\"relays\":[" ++ (txt ",").intercalate
          ((List.finRange NUM_RELAYS).map (fun i =>
            txt "\x7b\"id\":" ++ intToText ((i.val : Int) + 1)
              ++ txt ",\"name\":\"" ++ (s.relays i).name
              ++ txt "\",\"description\":\"" ++ (s.relays i).description
              ++ txt "\",\"pin\":" ++ intToText (s.relays i).pin
              ++ txt ",\"state\":" ++ (if (s.relays i).state then txt "true" else txt "false")
              ++ txt "\x7d"))
        ++ txt "]\x7d" := by
  have hf : List.finRange NUM_RELAYS = [0, 1] := by decide
  rw [getRelayStatusJson_eq, relayArray, hf]
  simp [relayObject, boolText, txt, List.intercalate]

/-- The per-relay branch on a status action broadcasts the status reply and nothing else. -/
theorem relayCommand_status (s : Device) (relayId : Int)
    (hk : 1 ≤ relayId ∧ relayId ≤ (NUM_RELAYS : Int)) (action : Text)
    (hact : action ∈ [txt "status", txt "get_status"]) :
    relayCommand s relayId hk action
      = textAll s (relayStatusReply relayId (s.relays (slot (relayId - 1) (by omega)))) := by
  simp only [List.mem_cons, List.mem_singleton, List.not_mem_nil, or_false] at hact
  have h1 : ¬ (action = txt "on" ∨ action = txt "turn_on") := by
    rcases hact with h | h <;> rw [h] <;> decide
  have h2 : ¬ (action = txt "off" ∨ action = txt "turn_off") := by
    rcases hact with h | h <;> rw [h] <;> decide
  have h3 : ¬ (action = txt "toggle") := by
    rcases hact with h | h <;> rw [h] <;> decide
  unfold relayCommand
  simp only [h1, h2, h3, if_false]
  rw [if_pos hact]
  rfl

/-- A decoded command carrying an out-of-range `relay_id` only broadcasts the range error. -/
theorem jsonCommand_invalid_id (s : Device) (doc : JsonDocument)
    (hid : doc.containsRelayId = true)
    (hk : ¬ (1 ≤ doc.relayId ∧ doc.relayId ≤ (NUM_RELAYS : Int))) :
    jsonCommand s doc = textAll s
      (txt "\x7b\"status\":\"error\",\"message\":\"Invalid relay_id. Must be between 1 and 2\"\x7d") := by
  have hn : intToText (NUM_RELAYS : Int) = txt "2" := by decide
  unfold jsonCommand
  simp only [hid, if_true]
  rw [dif_neg hk, hn]
  rfl

/-- A decoded command without `relay_id` whose action is `get_all_status` or `status`. -/
theorem jsonCommand_all_status (s : Device) (doc : JsonDocument)
    (hid : doc.containsRelayId = false)
    (hact : toLowerCase doc.action ∈ [txt "get_all_status", txt "status"]) :
    jsonCommand s doc = textAll s (getRelayStatusJson s) := by
  simp only [List.mem_cons, List.mem_singleton, List.not_mem_nil, or_false] at hact
  unfold jsonCommand
  simp only [hid, Bool.false_eq_true, if_false]
  rw [if_pos hact]

/-- C11: for every decoder, device state and complete text frame: a decoded status or
get_status command with any `relay_id` changes no relay and writes no pin, and with an
in-range `relay_id` k its broadcast is the status reply rendered from relay k as it is
stored; a decoded get_all_status or status command without `relay_id` changes no relay,
writes no pin and broadcasts the full snapshot text. -/
theorem status_reads_do_not_mutate (dj : Decoder) (s : Device) (info : AwsFrameInfo)
    (data : List Nat) (doc : JsonDocument)
    (hframe : singleTextFrame info data.length = true)
    (hdec : dj (cleanMessage data) = some doc) :
    (doc.containsRelayId = true →
      toLowerCase doc.action ∈ [txt "status", txt "get_status"] →
      (onWebSocketMessage dj s info data).relays = s.relays ∧
      (onWebSocketMessage dj s info data).pinWrites = s.pinWrites ∧
      ∀ hk : 1 ≤ doc.relayId ∧ doc.relayId ≤ (NUM_RELAYS : Int),
        (onWebSocketMessage dj s info data).broadcasts = s.broadcasts ++
          [relayStatusReply doc.relayId (s.relays (slot (doc.relayId - 1) (by omega)))]) ∧
    (doc.containsRelayId = false →
      toLowerCase doc.action ∈ [txt "get_all_status", txt "status"] →
      (onWebSocketMessage dj s info data).relays = s.relays ∧
      (onWebSocketMessage dj s info data).pinWrites = s.pinWrites ∧
      (onWebSocketMessage dj s info data).broadcasts
        = s.broadcasts ++ [getRelayStatusJson s]) := by
  rw [onWebSocketMessage_json dj s info data doc hframe hdec]
  refine ⟨fun hid hact => ?_, fun hid hact => ?_⟩
  · by_cases hk : 1 ≤ doc.relayId ∧ doc.relayId ≤ (NUM_RELAYS : Int)
    · rw [jsonCommand_targeted s doc hid hk, relayCommand_status s doc.relayId hk _ hact]
      exact ⟨rfl, rfl, fun _ => rfl⟩
    · rw [jsonCommand_invalid_id s doc hid hk]
      exact ⟨rfl, rfl, fun h => absurd h hk⟩
  · rw [jsonCommand_all_status s doc hid hact]
    exact ⟨rfl, rfl, rfl⟩

/-- Instance of C11: `\x7b"relay_id":2,"action":"get_status"\x7d` on the boot device. -/
theorem status_reads_do_not_mutate_witness :
    (receive bootDevice (txt "\x7b\"relay_id\":2,\"action\":\"get_status\"\x7d")).relays
      = bootDevice.relays ∧
    (receive bootDevice (txt "\x7b\"relay_id\":2,\"action\":\"get_status\"\x7d")).pinWrites
      = bootDevice.pinWrites ∧
    (receive bootDevice (txt "\x7b\"relay_id\":2,\"action\":\"get_status\"\x7d")).broadcasts
      = bootDevice.broadcasts ++
        [relayStatusReply 2 (bootDevice.relays (slot (2 - 1) (by decide)))] :=
  have h := (status_reads_do_not_mutate flatJson bootDevice (textFrame _)
    (txt "\x7b\"relay_id\":2,\"action\":\"get_status\"\x7d")
    { action := txt "get_status", containsRelayId := true, relayId := 2 }
    (by decide) (by decide)).1 rfl (by decide)
  ⟨h.1, h.2.1, h.2.2 (by decide)⟩

/-- C14, as the code has it: for every decoder, device state and complete text frame decoded
to a status or get_status command with an in-range `relay_id` k, the broadcast is the object
with the keys relay_id, name, description, pin, state in this order; it has no status
member. -/
theorem targeted_status_reply_keys (dj : Decoder) (s : Device) (info : AwsFrameInfo)
    (data : List Nat) (doc : JsonDocument)
    (hframe : singleTextFrame info data.length = true)
    (hdec : dj (cleanMessage data) = some doc)
    (hid : doc.containsRelayId = true)
    (hk : 1 ≤ doc.relayId ∧ doc.relayId ≤ (NUM_RELAYS : Int))
    (hact : toLowerCase doc.action ∈ [txt "status", txt "get_status"]) :
    (onWebSocketMessage dj s info data).broadcasts = s.broadcasts ++
      [txt "\x7b\"relay_id\":" ++ intToText doc.relayId
        ++ txt ",\"name\":\"" ++ (s.relays (slot (doc.relayId - 1) (by omega))).name
        ++ txt "\",\"description\":\""
        ++ (s.relays (slot (doc.relayId - 1) (by omega))).description
        ++ txt "\",\"pin\":" ++ intToText (s.relays (slot (doc.relayId - 1) (by omega))).pin
        ++ txt ",\"state\":"
        ++ (if (s.relays (slot (doc.relayId - 1) (by omega))).state
            then txt "true" else txt "false")
        ++ txt "\x7d"] := by
  rw [onWebSocketMessage_json dj s info data doc hframe hdec, jsonCommand_targeted s doc hid hk,
    relayCommand_status s doc.relayId hk _ hact]
  rfl

/-- Instance of C14 as amended: `\x7b"relay_id":1,"action":"status"\x7d` on the boot
device. -/
theorem targeted_status_reply_keys_witness :
    (receive bootDevice (txt "\x7b\"relay_id\":1,\"action\":\"status\"\x7d")).broadcasts
      = bootDevice.broadcasts ++
      [txt "\x7b\"relay_id\":" ++ intToText 1
        ++ txt ",\"name\":\"" ++ (bootDevice.relays (slot (1 - 1) (by decide))).name
        ++ txt "\",\"description\":\""
        ++ (bootDevice.relays (slot (1 - 1) (by decide))).description
        ++ txt "\",\"pin\":" ++ intToText (bootDevice.relays (slot (1 - 1) (by decide))).pin
        ++ txt ",\"state\":"
        ++ (if (bootDevice.relays (slot (1 - 1) (by decide))).state
            then txt "true" else txt "false")
        ++ txt "\x7d"] :=
  targeted_status_reply_keys flatJson bootDevice (textFrame _)
    (txt "\x7b\"relay_id\":1,\"action\":\"status\"\x7d")
    { action := txt "status", containsRelayId := true, relayId := 1 }
    (by decide) (by decide) rfl (by decide) (by decide)

/-- C14 as stated fails: for `\x7b"relay_id":1,"action":"status"\x7d` on the boot device the
broadcast starts with the `relay_id` member, and the text `"status"` occurs nowhere in
it. -/
theorem targeted_status_reply_has_no_status_key :
    (receive bootDevice (txt "\x7b\"relay_id\":1,\"action\":\"status\"\x7d")).broadcasts =
      [txt ("\x7b\"relay_id\":1,\"name\":\"Living Light\","
        ++ "\"description\":\"Living room main lighting\",\"pin\":18,\"state\":false\x7d")] ∧
    ∀ reply ∈ (receive bootDevice (txt "\x7b\"relay_id\":1,\"action\":\"status\"\x7d")).broadcasts,
      ¬ (txt "\"status\"" <:+: reply) := by
  decide

/-! ## Welcome message and `/info` -/

/-- Lemma: `substring` from the end of a prefix up to the last character returns what lies in
between. -/
theorem substring_inner (a m : Text) (c : Nat) :
    substring (a ++ m ++ [c]) a.length ((a ++ m ++ [c]).length - 1) = m := by
  have h1 : (a ++ m ++ [c]).length - 1 = a.length + m.length := by simp
  have h2 : (a ++ m ++ [c]).length = a.length + m.length + 1 := by simp; omega
  have h3 : ¬ (a.length > a.length + m.length) := by omega
  have h4 : ¬ (a.length ≥ a.length + m.length + 1) := by omega
  have h5 : ¬ (a.length + m.length > a.length + m.length + 1) := by omega
  unfold substring
  rw [h1, h2]
  simp only [h3, h4, h5, if_false]
  rw [List.append_assoc, List.drop_left, Nat.add_sub_cancel_left, List.take_left]

/-- The substring taken at lines 228 and 366 is the relay array of the snapshot. -/
theorem relayArrayText_eq (s : Device) : relayArrayText s = relayArray s := by
  have h := substring_inner (txt "\x7b\"relays\":") (relayArray s) 125
  have ha : (txt "\x7b\"relays\":").length = 10 := by decide
  have hb : txt "\x7d" = [125] := by decide
  rw [ha] at h
  unfold relayArrayText
  rw [getRelayStatusJson_eq, hb]
  exact h

/-- C15: for every device state, the substring `getRelayStatusJson().substring(10,
length - 1)` is exactly the value of the `relays` member of the snapshot, the array of all
relay objects in id order from its opening bracket to its closing bracket; the connect event
sends `\x7b"message":"Connected to ESP32","relays":[...]\x7d` to the new client and leaves the
device as it is; and the `/info` body ends with the same array as its `relays` member. -/
theorem welcome_embeds_snapshot (dj : Decoder) (wifi : WiFiStatus) (s : Device)
    (info : AwsFrameInfo) (data : List Nat) :
    getRelayStatusJson s = txt "\x7b\"relays\":" ++ relayArray s ++ txt "\x7d" ∧
    substring (getRelayStatusJson s) 10 ((getRelayStatusJson s).length - 1) = relayArray s ∧
    onEvent dj s AwsEventType.WS_EVT_CONNECT info data
      = (s, some (txt "\x7b\"message\":\"Connected to ESP32\",\"relays\":" ++ relayArray s
          ++ txt "\x7d")) ∧
    handleInfo wifi s =
      { code := 200, contentType := txt "application/json",
        body := txt ("\x7b\"device_name\":\"ESP32_Controller\","
            ++ "\"device_type\":\"home_automation\",\"ip_address\":\"")
          ++ wifi.localIP ++ txt "\",\"mac_address\":\"" ++ wifi.macAddress
          ++ txt "\",\"num_relays\":2,\"relays\":" ++ relayArray s ++ txt "\x7d" } := by
  have hn : intToText (NUM_RELAYS : Int) = txt "2" := by decide
  refine ⟨getRelayStatusJson_eq s, relayArrayText_eq s, ?_, ?_⟩
  · simp only [onEvent, welcomeText, relayArrayText_eq]
  · unfold handleInfo
    rw [relayArrayText_eq, hn]
    simp [deviceName, deviceType, txt]

/-! ## Every path of the handler -/

/-- Every path of the JSON branch ends in exactly one `textAll`, on a device that is the
prior one, or the prior one after one `setRelayState`, or after the loop over all relays; and
the text broadcast is one of five fixed texts, a success reply for relay 1 or 2, a text that
starts with the `relay_id` member, or a text that starts with the `relays` member. -/
theorem jsonCommand_shape (s : Device) (doc : JsonDocument) :
    ∃ d r, jsonCommand s doc = textAll d r ∧
      (d = s ∨ (∃ i v, d = setRelayState s i v) ∨ ∃ v, d = setAllRelays s v) ∧
      (r ∈ [txt ("\x7b\"status\":\"error\",\"message\":\"Invalid action for relay\","
              ++ "\"valid_actions\":[\"on\",\"off\",\"toggle\",\"status\"]\x7d"),
            txt "\x7b\"status\":\"error\",\"message\":\"Invalid relay_id. Must be between 1 and 2\"\x7d",
            txt "\x7b\"status\":\"success\",\"action\":\"all_on\",\"message\":\"All relays turned ON\"\x7d",
            txt "\x7b\"status\":\"success\",\"action\":\"all_off\",\"message\":\"All relays turned OFF\"\x7d",
            txt ("\x7b\"status\":\"error\",\"message\":\"Invalid action\",\"valid_actions\":"
              ++ "[\"on\",\"off\",\"toggle\",\"status\",\"all_on\",\"all_off\"]\x7d")]
        ∨ (∃ k a b, (k = 1 ∨ k = 2) ∧ a ∈ [txt "on", txt "off", txt "toggle"]
            ∧ r = successReply k a b)
        ∨ (∃ rest, r = txt "\x7b\"relay_id\":" ++ rest)
        ∨ (∃ rest, r = txt "\x7b\"relays\":" ++ rest)) := by
  by_cases hid : doc.containsRelayId = true
  · by_cases hk : 1 ≤ doc.relayId ∧ doc.relayId ≤ (NUM_RELAYS : Int)
    · have hidx : 0 ≤ doc.relayId - 1 ∧ doc.relayId - 1 < (NUM_RELAYS : Int) := by omega
      have hn : ((NUM_RELAYS : Nat) : Int) = 2 := rfl
      have hk2 : doc.relayId = 1 ∨ doc.relayId = 2 := by omega
      rw [jsonCommand_targeted s doc hid hk]
      by_cases h1 : toLowerCase doc.action = txt "on" ∨ toLowerCase doc.action = txt "turn_on"
      · refine ⟨setRelayState s (doc.relayId - 1) true, _, ?_, Or.inr (Or.inl ⟨_, _, rfl⟩),
          Or.inr (Or.inl ⟨doc.relayId, txt "on", true, hk2, by decide, rfl⟩)⟩
        unfold relayCommand
        rw [if_pos h1]
        simp [successReply, boolText, txt]
      by_cases h2 : toLowerCase doc.action = txt "off" ∨ toLowerCase doc.action = txt "turn_off"
      · refine ⟨setRelayState s (doc.relayId - 1) false, _, ?_, Or.inr (Or.inl ⟨_, _, rfl⟩),
          Or.inr (Or.inl ⟨doc.relayId, txt "off", false, hk2, by decide, rfl⟩)⟩
        unfold relayCommand
        rw [if_neg h1, if_pos h2]
        simp [successReply, boolText, txt]
      by_cases h3 : toLowerCase doc.action = txt "toggle"
      · refine ⟨toggleRelay s (doc.relayId - 1), _, ?_,
          Or.inr (Or.inl ⟨_, _, toggleRelay_valid s _ hidx⟩),
          Or.inr (Or.inl ⟨doc.relayId, txt "toggle",
            ((toggleRelay s (doc.relayId - 1)).relays (slot (doc.relayId - 1) hidx)).state,
            hk2, by decide, rfl⟩)⟩
        unfold relayCommand
        rw [if_neg h1, if_neg h2, if_pos h3]
        simp [successReply, txt]
      by_cases h4 : toLowerCase doc.action ∈ [txt "status", txt "get_status"]
      · refine ⟨s, _, relayCommand_status s doc.relayId hk _ h4, Or.inl rfl,
          Or.inr (Or.inr (Or.inl ?_))⟩
        unfold relayStatusReply
        simp only [List.append_assoc]
        exact ⟨_, rfl⟩
      · simp only [List.mem_cons, List.mem_singleton, List.not_mem_nil, or_false] at h4
        refine ⟨s, _, ?_, Or.inl rfl, Or.inl (List.mem_cons_self _ _)⟩
        unfold relayCommand
        rw [if_neg h1, if_neg h2, if_neg h3, if_neg h4]
    · exact ⟨s, _, jsonCommand_invalid_id s doc hid hk, Or.inl rfl,
        Or.inl (List.mem_cons_of_mem _ (List.mem_cons_self _ _))⟩
  · have hid2 : doc.containsRelayId = false := by simpa using hid
    by_cases h1 : toLowerCase doc.action ∈ [txt "get_all_status", txt "status"]
    · refine ⟨s, _, jsonCommand_all_status s doc hid2 h1, Or.inl rfl,
        Or.inr (Or.inr (Or.inr ⟨relayArray s ++ txt "\x7d", ?_⟩))⟩
      rw [getRelayStatusJson_eq, List.append_assoc]
    by_cases h2 : toLowerCase doc.action ∈ [txt "all_on", txt "turn_all_on"]
    · exact ⟨_, _, jsonCommand_all_on s doc hid2 h2, Or.inr (Or.inr ⟨true, rfl⟩),
        Or.inl (by simp)⟩
    by_cases h3 : toLowerCase doc.action ∈ [txt "all_off", txt "turn_all_off"]
    · exact ⟨_, _, jsonCommand_all_off s doc hid2 h3, Or.inr (Or.inr ⟨false, rfl⟩),
        Or.inl (by simp)⟩
    · simp only [List.mem_cons, List.mem_singleton, List.not_mem_nil, or_false] at h1 h2 h3
      refine ⟨s, txt ("\x7b\"status\":\"error\",\"message\":\"Invalid action\",\"valid_actions\":"
        ++ "[\"on\",\"off\",\"toggle\",\"status\",\"all_on\",\"all_off\"]\x7d"), ?_,
        Or.inl rfl, Or.inl (by simp)⟩
      unfold jsonCommand
      simp only [hid2, Bool.false_eq_true, if_false]
      rw [if_neg h1, if_neg h2, if_neg h3]
      rfl

/-- Lemma: `setRelayState` broadcasts nothing. -/
theorem setRelayState_broadcasts (s : Device) (relayIndex : Int) (v : Bool) :
    (setRelayState s relayIndex v).broadcasts = s.broadcasts := by
  by_cases h : 0 ≤ relayIndex ∧ relayIndex < (NUM_RELAYS : Int)
  · rw [setRelayState_valid s relayIndex v h]
  · rw [setRelayState_invalid s relayIndex v h]

/-- C17: for every decoder, device state and complete single-frame text message, whatever
its content, the handler adds exactly one broadcast to the trace of `ws.textAll` calls. -/
theorem exactly_one_broadcast (dj : Decoder) (s : Device) (info : AwsFrameInfo)
    (data : List Nat) (hframe : singleTextFrame info data.length = true) :
    ∃ reply, (onWebSocketMessage dj s info data).broadcasts = s.broadcasts ++ [reply] := by
  cases hdec : dj (cleanMessage data) with
  | none =>
    rw [onWebSocketMessage_not_json dj s info data hframe hdec]
    exact ⟨_, rfl⟩
  | some doc =>
    rw [onWebSocketMessage_json dj s info data doc hframe hdec]
    obtain ⟨d, r, hrun, hd, _⟩ := jsonCommand_shape s doc
    refine ⟨r, ?_⟩
    rw [hrun]
    have hb : d.broadcasts = s.broadcasts := by
      rcases hd with hd | ⟨i, v, hd⟩ | ⟨v, hd⟩
      · rw [hd]
      · rw [hd, setRelayState_broadcasts]
      · rw [hd, setAllRelays_eq]
    simp only [textAll, hb]

/-- Instance of C17: the text `hello` on the boot device. -/
theorem exactly_one_broadcast_witness :
    ∃ reply, (receive bootDevice (txt "hello")).broadcasts = bootDevice.broadcasts ++ [reply] :=
  exactly_one_broadcast flatJson bootDevice (textFrame _) (txt "hello") (by decide)

/-! ## Status and message members of the replies -/

/-- A text that starts with `a` does not start with `p` when neither of the two starts with
the other. -/
theorem not_prefix_append (p a rest : Text) (h : ¬ (p <+: a ∨ a <+: p)) :
    ¬ p <+: a ++ rest :=
  fun hp => h (List.prefix_or_prefix_of_prefix hp (List.prefix_append a rest))

/-- The `Unknown command` reply has error status and a `message` member. -/
theorem helpMsg_members (msg : Text) :
    hasMessageField (helpMsg msg) ∧ ¬ hasStatus (txt "success") (helpMsg msg) := by
  constructor
  · refine ⟨txt "\x7b\"status\":\"error\",", txt "\"Unknown command\",\"command\":\"" ++ msg
      ++ txt ("\",\"help\":\x7b\"json_format\":\x7b"
        ++ "\"relay_control\":\"\x7b\\\"relay_id\\\":1,\\\"action\\\":\\\"on\\\"\x7d\","
        ++ "\"all_control\":\"\x7b\\\"action\\\":\\\"all_on\\\"\x7d\","
        ++ "\"status\":\"\x7b\\\"action\\\":\\\"status\\\"\x7d\"\x7d\x7d\x7d"), ?_⟩
    simp [helpMsg, txt]
  · unfold helpMsg
    simp only [List.append_assoc]
    exact not_prefix_append _ _ _ (by decide)

/-- C12, as the code has it: for every decoder, device state and complete text frame, the
one broadcast added carries a `message` member whenever its status is error; and when its
status is success it carries a `message` member only if it is the reply to all_on or to
all_off, which do carry one. -/
theorem error_replies_carry_message (dj : Decoder) (s : Device) (info : AwsFrameInfo)
    (data : List Nat) (hframe : singleTextFrame info data.length = true) :
    ∃ reply, (onWebSocketMessage dj s info data).broadcasts = s.broadcasts ++ [reply] ∧
      (hasStatus (txt "error") reply → hasMessageField reply) ∧
      (hasStatus (txt "success") reply → hasMessageField reply →
        reply = txt "\x7b\"status\":\"success\",\"action\":\"all_on\",\"message\":\"All relays turned ON\"\x7d"
        ∨ reply = txt "\x7b\"status\":\"success\",\"action\":\"all_off\",\"message\":\"All relays turned OFF\"\x7d") := by
  cases hdec : dj (cleanMessage data) with
  | none =>
    rw [onWebSocketMessage_not_json dj s info data hframe hdec]
    exact ⟨helpMsg (cleanMessage data), rfl, fun _ => (helpMsg_members _).1,
      fun h => absurd h (helpMsg_members _).2⟩
  | some doc =>
    rw [onWebSocketMessage_json dj s info data doc hframe hdec]
    obtain ⟨d, r, hrun, hd, hr⟩ := jsonCommand_shape s doc
    have hb : d.broadcasts = s.broadcasts := by
      rcases hd with hd | ⟨i, v, hd⟩ | ⟨v, hd⟩
      · rw [hd]
      · rw [hd, setRelayState_broadcasts]
      · rw [hd, setAllRelays_eq]
    refine ⟨r, by rw [hrun]; simp only [textAll, hb], ?_⟩
    rcases hr with hr | ⟨k, a, b, hk, ha, hr⟩ | ⟨rest, hr⟩ | ⟨rest, hr⟩
    · simp only [List.mem_cons, List.mem_singleton, List.not_mem_nil, or_false] at hr
      rcases hr with hr | hr | hr | hr | hr <;> subst hr <;> decide
    · simp only [List.mem_cons, List.mem_singleton, List.not_mem_nil, or_false] at ha
      subst hr
      rcases hk with hk | hk <;> rcases ha with ha | ha | ha <;> subst hk <;> subst ha <;>
        cases b <;> decide
    · subst hr
      exact ⟨fun h => absurd h (not_prefix_append _ _ _ (by decide)),
        fun h => absurd h (not_prefix_append _ _ _ (by decide))⟩
    · subst hr
      exact ⟨fun h => absurd h (not_prefix_append _ _ _ (by decide)),
        fun h => absurd h (not_prefix_append _ _ _ (by decide))⟩

/-- Instance of C12 as amended: the reply to `\x7b"relay_id":9,"action":"on"\x7d` on the boot
device. -/
theorem error_replies_carry_message_witness :
    ∃ reply, (receive bootDevice (txt "\x7b\"relay_id\":9,\"action\":\"on\"\x7d")).broadcasts
        = bootDevice.broadcasts ++ [reply] ∧
      (hasStatus (txt "error") reply → hasMessageField reply) ∧
      (hasStatus (txt "success") reply → hasMessageField reply →
        reply = txt "\x7b\"status\":\"success\",\"action\":\"all_on\",\"message\":\"All relays turned ON\"\x7d"
        ∨ reply = txt "\x7b\"status\":\"success\",\"action\":\"all_off\",\"message\":\"All relays turned OFF\"\x7d") :=
  error_replies_carry_message flatJson bootDevice (textFrame _)
    (txt "\x7b\"relay_id\":9,\"action\":\"on\"\x7d") (by decide)

/-- C12 as stated fails: the reply to `\x7b"action":"all_on"\x7d` on the boot device has
status success and carries a `message` member. -/
theorem all_on_success_carries_message :
    (receive bootDevice (txt "\x7b\"action\":\"all_on\"\x7d")).broadcasts =
      [txt "\x7b\"status\":\"success\",\"action\":\"all_on\",\"message\":\"All relays turned ON\"\x7d"] ∧
    ∀ reply ∈ (receive bootDevice (txt "\x7b\"action\":\"all_on\"\x7d")).broadcasts,
      hasStatus (txt "success") reply ∧ hasMessageField reply := by
  decide

/-- C19: for every decoder, device state and complete text frame decoded to a command with
an in-range `relay_id` and an action outside on, turn_on, off, turn_off, toggle, status,
get_status, no relay changes, no pin is written and the one broadcast added is the
`Invalid action for relay` error; the actions all_on, turn_all_on, all_off, turn_all_off and
get_all_status are such actions, so none of them runs when `relay_id` is present. -/
theorem relay_id_takes_precedence (dj : Decoder) (s : Device) (info : AwsFrameInfo)
    (data : List Nat) (doc : JsonDocument)
    (hframe : singleTextFrame info data.length = true)
    (hdec : dj (cleanMessage data) = some doc)
    (hid : doc.containsRelayId = true)
    (hk : 1 ≤ doc.relayId ∧ doc.relayId ≤ (NUM_RELAYS : Int)) :
    (toLowerCase doc.action ∉ [txt "on", txt "turn_on", txt "off", txt "turn_off",
        txt "toggle", txt "status", txt "get_status"] →
      (onWebSocketMessage dj s info data).relays = s.relays ∧
      (onWebSocketMessage dj s info data).pinWrites = s.pinWrites ∧
      (onWebSocketMessage dj s info data).broadcasts = s.broadcasts ++
        [txt ("\x7b\"status\":\"error\",\"message\":\"Invalid action for relay\","
          ++ "\"valid_actions\":[\"on\",\"off\",\"toggle\",\"status\"]\x7d")]) ∧
    (toLowerCase doc.action ∈ [txt "all_on", txt "turn_all_on", txt "all_off",
        txt "turn_all_off", txt "get_all_status"] →
      toLowerCase doc.action ∉ [txt "on", txt "turn_on", txt "off", txt "turn_off",
        txt "toggle", txt "status", txt "get_status"]) := by
  constructor
  · intro hact
    rw [onWebSocketMessage_json dj s info data doc hframe hdec, jsonCommand_targeted s doc hid hk]
    simp only [List.mem_cons, List.mem_singleton, List.not_mem_nil, or_false, not_or] at hact
    obtain ⟨h1, h2, h3, h4, h5, h6, h7⟩ := hact
    unfold relayCommand
    simp only [h1, h2, h3, h4, h5, h6, h7, or_self, if_false]
    exact ⟨rfl, rfl, rfl⟩
  · intro hact
    simp only [List.mem_cons, List.mem_singleton, List.not_mem_nil, or_false] at hact
    rcases hact with h | h | h | h | h <;> rw [h] <;> decide

/-- Instance of C19: `\x7b"relay_id":1,"action":"all_on"\x7d` on the boot device. -/
theorem relay_id_takes_precedence_witness :
    (receive bootDevice (txt "\x7b\"relay_id\":1,\"action\":\"all_on\"\x7d")).relays
      = bootDevice.relays ∧
    (receive bootDevice (txt "\x7b\"relay_id\":1,\"action\":\"all_on\"\x7d")).pinWrites
      = bootDevice.pinWrites ∧
    (receive bootDevice (txt "\x7b\"relay_id\":1,\"action\":\"all_on\"\x7d")).broadcasts
      = bootDevice.broadcasts ++
        [txt ("\x7b\"status\":\"error\",\"message\":\"Invalid action for relay\","
          ++ "\"valid_actions\":[\"on\",\"off\",\"toggle\",\"status\"]\x7d")] :=
  (relay_id_takes_precedence flatJson bootDevice (textFrame _)
    (txt "\x7b\"relay_id\":1,\"action\":\"all_on\"\x7d")
    { action := txt "all_on", containsRelayId := true, relayId := 1 }
    (by decide) (by decide) rfl (by decide)).1 (by decide)

/-! ## Route `POST /api/relay/control` -/

/-- The route with both parameters present. -/
theorem handleRelayControl_present (s : Device) (request : AsyncWebServerRequest)
    (idValue actionValue : Text)
    (h1 : request.params.lookup (txt "id") = some idValue)
    (h2 : request.params.lookup (txt "action") = some actionValue) :
    handleRelayControl s request =
      if h : 1 ≤ toInt idValue ∧ toInt idValue ≤ (NUM_RELAYS : Int) then
        controlRelay s (toInt idValue) h (toLowerCase actionValue)
      else
        (s, { code := 400, contentType := txt "application/json",
              body := txt "\x7b\"error\":\"Invalid relay ID. Must be between 1 and "
                ++ intToText NUM_RELAYS ++ txt "\"\x7d" }) := by
  unfold handleRelayControl
  rw [h1, h2]

/-- The route with a parameter missing leaves the device as it is. -/
theorem relay_control_shape_missing (s : Device) (request : AsyncWebServerRequest)
    (h : request.params.lookup (txt "id") = none ∨ request.params.lookup (txt "action") = none) :
    (handleRelayControl s request).1 = s := by
  unfold handleRelayControl
  rcases h with h | h
  · rw [h]
  · rw [h]
    cases request.params.lookup (txt "id") <;> rfl

/-- C16, as the code has it: for every device state and every request on the route, the
answer is 400 and the device is unchanged when the id or the action parameter is missing,
when the id read with `toInt` is outside `1 .. NUM_RELAYS`, or when the lower-cased action
is none of on, 1, true, off, 0, false, toggle; otherwise the answer is 200 with the body
`\x7b"success":true,"relay":id,"state":s\x7d`, s being the state the relay holds after the
call: true for on, 1, true; false for off, 0, false; the negation of the prior state for
toggle. -/
theorem relay_control_answers (s : Device) (request : AsyncWebServerRequest) :
    ((request.params.lookup (txt "id") = none ∨ request.params.lookup (txt "action") = none) →
      (handleRelayControl s request).1 = s ∧ (handleRelayControl s request).2.code = 400) ∧
    ∀ idValue actionValue,
      request.params.lookup (txt "id") = some idValue →
      request.params.lookup (txt "action") = some actionValue →
      (¬ (1 ≤ toInt idValue ∧ toInt idValue ≤ (NUM_RELAYS : Int)) →
        (handleRelayControl s request).1 = s ∧ (handleRelayControl s request).2.code = 400) ∧
      ∀ hk : 1 ≤ toInt idValue ∧ toInt idValue ≤ (NUM_RELAYS : Int),
        (toLowerCase actionValue ∉ [txt "on", txt "1", txt "true", txt "off", txt "0",
            txt "false", txt "toggle"] →
          (handleRelayControl s request).1 = s ∧
          (handleRelayControl s request).2.code = 400) ∧
        (toLowerCase actionValue ∈ [txt "on", txt "1", txt "true", txt "off", txt "0",
            txt "false", txt "toggle"] →
          (handleRelayControl s request).2 =
            { code := 200, contentType := txt "application/json",
              body := txt "\x7b\"success\":true,\"relay\":" ++ intToText (toInt idValue)
                ++ txt ",\"state\":"
                ++ boolText ((handleRelayControl s request).1.relays
                    (slot (toInt idValue - 1) (by omega))).state
                ++ txt "\x7d" } ∧
          ((handleRelayControl s request).1.relays (slot (toInt idValue - 1) (by omega))).state
            = (if toLowerCase actionValue ∈ [txt "on", txt "1", txt "true"] then true
               else if toLowerCase actionValue ∈ [txt "off", txt "0", txt "false"] then false
               else !(s.relays (slot (toInt idValue - 1) (by omega))).state)) := by
  constructor
  · intro hmiss
    unfold handleRelayControl
    rcases hmiss with h | h
    · rw [h]
      exact ⟨rfl, rfl⟩
    · rw [h]
      cases request.params.lookup (txt "id") <;> exact ⟨rfl, rfl⟩
  · intro idValue actionValue h1 h2
    rw [handleRelayControl_present s request idValue actionValue h1 h2]
    constructor
    · intro hk
      rw [dif_neg hk]
      exact ⟨rfl, rfl⟩
    · intro hk
      have hidx : 0 ≤ toInt idValue - 1 ∧ toInt idValue - 1 < (NUM_RELAYS : Int) := by omega
      rw [dif_pos hk]
      generalize toLowerCase actionValue = action
      constructor
      · intro hact
        simp only [List.mem_cons, List.mem_singleton, List.not_mem_nil, or_false, not_or] at hact
        obtain ⟨a1, a2, a3, a4, a5, a6, a7⟩ := hact
        unfold controlRelay
        rw [if_neg (by simp only [a1, a2, a3, or_self, not_false_eq_true]),
          if_neg (by simp only [a4, a5, a6, or_self, not_false_eq_true]), if_neg a7]
        exact ⟨rfl, rfl⟩
      · intro _
        by_cases hon : action = txt "on" ∨ action = txt "1" ∨ action = txt "true"
        · have hm : action ∈ [txt "on", txt "1", txt "true"] := by simpa using hon
          unfold controlRelay
          rw [if_pos hon, if_pos hm, setRelayState_valid s _ true hidx]
          simp [boolText, txt, slot]
        by_cases hoff : action = txt "off" ∨ action = txt "0" ∨ action = txt "false"
        · have hm : action ∉ [txt "on", txt "1", txt "true"] := by simpa using hon
          have hm2 : action ∈ [txt "off", txt "0", txt "false"] := by simpa using hoff
          unfold controlRelay
          rw [if_neg hon, if_pos hoff, if_neg hm, if_pos hm2, setRelayState_valid s _ false hidx]
          simp [boolText, txt, slot]
        by_cases htog : action = txt "toggle"
        · have hm : action ∉ [txt "on", txt "1", txt "true"] := by simpa using hon
          have hm2 : action ∉ [txt "off", txt "0", txt "false"] := by simpa using hoff
          unfold controlRelay
          rw [if_neg hon, if_neg hoff, if_pos htog, if_neg hm, if_neg hm2,
            toggleRelay_valid s _ hidx, setRelayState_valid s _ _ hidx]
          simp [slot]
        · rename_i hin
          exfalso
          simp only [List.mem_cons, List.mem_singleton, List.not_mem_nil, or_false] at hin
          rcases hin with h | h | h | h | h | h | h
          · exact hon (Or.inl h)
          · exact hon (Or.inr (Or.inl h))
          · exact hon (Or.inr (Or.inr h))
          · exact hoff (Or.inl h)
          · exact hoff (Or.inr (Or.inl h))
          · exact hoff (Or.inr (Or.inr h))
          · exact htog h

/-- Instance of C16 as amended: `id=2&action=toggle` on the boot device. -/
theorem relay_control_answers_witness :
    (handleRelayControl bootDevice
        { params := [(txt "id", txt "2"), (txt "action", txt "toggle")] }).2 =
      { code := 200, contentType := txt "application/json",
        body := txt "\x7b\"success\":true,\"relay\":" ++ intToText (toInt (txt "2"))
          ++ txt ",\"state\":"
          ++ boolText ((handleRelayControl bootDevice
              { params := [(txt "id", txt "2"), (txt "action", txt "toggle")] }).1.relays
              (slot (toInt (txt "2") - 1) (by decide))).state
          ++ txt "\x7d" } :=
  ((((relay_control_answers bootDevice
    { params := [(txt "id", txt "2"), (txt "action", txt "toggle")] }).2
    (txt "2") (txt "toggle") (by decide) (by decide)).2 (by decide)).2 (by decide)).1

/-- C16 as stated fails: the action `1` is none of on, off, toggle, yet the request
`id=1&action=1` on the boot device is answered 200 with `\x7b"success":true,"relay":1,
"state":true\x7d` and switches relay 1 on. -/
theorem relay_control_accepts_one :
    (handleRelayControl bootDevice
        { params := [(txt "id", txt "1"), (txt "action", txt "1")] }).2 =
      { code := 200, contentType := txt "application/json",
        body := txt "\x7b\"success\":true,\"relay\":1,\"state\":true\x7d" } ∧
    ((handleRelayControl bootDevice
        { params := [(txt "id", txt "1"), (txt "action", txt "1")] }).1.relays 0).state = true ∧
    (bootDevice.relays 0).state = false := by
  decide

/-! ## Normalisation: content of the cleaned text -/

/-- The level just written to a pin is the level last written to it. -/
theorem lastWritten_append_same (writes : List (Int × Nat)) (pin : Int) (level : Nat) :
    lastWritten (writes ++ [(pin, level)]) pin = some level := by
  simp [lastWritten, List.filter_append, List.filter_cons]

/-- A write to another pin does not change the level last written to a pin. -/
theorem lastWritten_append_other (writes : List (Int × Nat)) (pin other : Int) (level : Nat)
    (h : other ≠ pin) :
    lastWritten (writes ++ [(other, level)]) pin = lastWritten writes pin := by
  simp [lastWritten, List.filter_append, List.filter_cons, h]

/-- The configured pins are pairwise distinct. -/
theorem configured_pins_distinct (i j : Fin NUM_RELAYS)
    (h : (configuredRelays i).pin = (configuredRelays j).pin) : i = j := by
  revert i j
  decide

/-- Lemma: `setRelayState` keeps the invariant. -/
theorem setRelayState_invariant (s : Device) (relayIndex : Int) (v : Bool)
    (hinv : pinsAgree s ∧ configurationKept s) :
    pinsAgree (setRelayState s relayIndex v) ∧ configurationKept (setRelayState s relayIndex v) := by
  by_cases h : 0 ≤ relayIndex ∧ relayIndex < (NUM_RELAYS : Int)
  · obtain ⟨hp, hc⟩ := hinv
    rw [setRelayState_valid s relayIndex v h]
    constructor
    · intro j
      by_cases hj : j = slot relayIndex h
      · subst hj
        simp only [Function.update_same]
        exact lastWritten_append_same _ _ _
      · have hpin : (s.relays (slot relayIndex h)).pin ≠ (s.relays j).pin := by
          intro heq
          rw [(hc _).1, (hc j).1] at heq
          exact hj (configured_pins_distinct _ _ heq).symm
        simp only [Function.update_noteq hj]
        rw [lastWritten_append_other _ _ _ _ hpin]
        exact hp j
    · intro j
      by_cases hj : j = slot relayIndex h
      · subst hj
        simp only [Function.update_same]
        exact hc _
      · simp only [Function.update_noteq hj]
        exact hc j
  · rw [setRelayState_invalid s relayIndex v h]
    exact hinv

/-- Lemma: `toggleRelay` keeps the invariant. -/
theorem toggleRelay_invariant (s : Device) (relayIndex : Int)
    (hinv : pinsAgree s ∧ configurationKept s) :
    pinsAgree (toggleRelay s relayIndex) ∧ configurationKept (toggleRelay s relayIndex) := by
  by_cases h : 0 ≤ relayIndex ∧ relayIndex < (NUM_RELAYS : Int)
  · rw [toggleRelay_valid s relayIndex h]
    exact setRelayState_invariant s relayIndex _ hinv
  · rw [toggleRelay_invalid s relayIndex h]
    exact hinv

/-- The loop over all relays keeps the invariant. -/
theorem setAllRelays_invariant (s : Device) (v : Bool)
    (hinv : pinsAgree s ∧ configurationKept s) :
    pinsAgree (setAllRelays s v) ∧ configurationKept (setAllRelays s v) := by
  unfold setAllRelays
  generalize List.range NUM_RELAYS = indices
  induction indices generalizing s with
  | nil => exact hinv
  | cons i rest ih =>
    rw [List.foldl_cons]
    exact ih _ (setRelayState_invariant s _ v hinv)

/-- A broadcast keeps the invariant. -/
theorem textAll_invariant (s : Device) (message : Text)
    (hinv : pinsAgree s ∧ configurationKept s) :
    pinsAgree (textAll s message) ∧ configurationKept (textAll s message) :=
  hinv

/-- Lemma: `onWebSocketMessage` keeps the invariant. -/
theorem onWebSocketMessage_invariant (dj : Decoder) (s : Device) (info : AwsFrameInfo)
    (data : List Nat) (hinv : pinsAgree s ∧ configurationKept s) :
    pinsAgree (onWebSocketMessage dj s info data)
      ∧ configurationKept (onWebSocketMessage dj s info data) := by
  by_cases hframe : singleTextFrame info data.length = true
  · cases hdec : dj (cleanMessage data) with
    | none =>
      rw [onWebSocketMessage_not_json dj s info data hframe hdec]
      exact textAll_invariant s _ hinv
    | some doc =>
      rw [onWebSocketMessage_json dj s info data doc hframe hdec]
      obtain ⟨d, r, hrun, hd, _⟩ := jsonCommand_shape s doc
      rw [hrun]
      apply textAll_invariant
      rcases hd with hd | ⟨i, v, hd⟩ | ⟨v, hd⟩
      · rw [hd]
        exact hinv
      · rw [hd]
        exact setRelayState_invariant s i v hinv
      · rw [hd]
        exact setAllRelays_invariant s v hinv
  · unfold onWebSocketMessage
    rw [if_neg hframe]
    exact hinv

/-- The per-relay branch of the control route keeps the invariant. -/
theorem controlRelay_invariant (s : Device) (relayId : Int)
    (hk : 1 ≤ relayId ∧ relayId ≤ (NUM_RELAYS : Int)) (action : Text)
    (hinv : pinsAgree s ∧ configurationKept s) :
    pinsAgree (controlRelay s relayId hk action).1
      ∧ configurationKept (controlRelay s relayId hk action).1 := by
  unfold controlRelay
  by_cases h1 : action = txt "on" ∨ action = txt "1" ∨ action = txt "true"
  · rw [if_pos h1]
    exact setRelayState_invariant s _ true hinv
  by_cases h2 : action = txt "off" ∨ action = txt "0" ∨ action = txt "false"
  · rw [if_neg h1, if_pos h2]
    exact setRelayState_invariant s _ false hinv
  by_cases h3 : action = txt "toggle"
  · rw [if_neg h1, if_neg h2, if_pos h3]
    exact toggleRelay_invariant s _ hinv
  · rw [if_neg h1, if_neg h2, if_neg h3]
    exact hinv

/-- The route `POST /api/relay/control` keeps the invariant. -/
theorem handleRelayControl_invariant (s : Device) (request : AsyncWebServerRequest)
    (hinv : pinsAgree s ∧ configurationKept s) :
    pinsAgree (handleRelayControl s request).1
      ∧ configurationKept (handleRelayControl s request).1 := by
  cases h1 : request.params.lookup (txt "id") with
  | none =>
    have h := (relay_control_shape_missing s request (Or.inl h1))
    rw [h]
    exact hinv
  | some idValue =>
    cases h2 : request.params.lookup (txt "action") with
    | none =>
      have h := (relay_control_shape_missing s request (Or.inr h2))
      rw [h]
      exact hinv
    | some actionValue =>
      rw [handleRelayControl_present s request idValue actionValue h1 h2]
      by_cases hk : 1 ≤ toInt idValue ∧ toInt idValue ≤ (NUM_RELAYS : Int)
      · rw [dif_pos hk]
        exact controlRelay_invariant s _ hk _ hinv
      · rw [dif_neg hk]
        exact hinv

/-- The route `POST /api/relays/all` keeps the invariant. -/
theorem handleRelaysAll_invariant (s : Device) (request : AsyncWebServerRequest)
    (hinv : pinsAgree s ∧ configurationKept s) :
    pinsAgree (handleRelaysAll s request).1
      ∧ configurationKept (handleRelaysAll s request).1 := by
  unfold handleRelaysAll
  cases request.params.lookup (txt "action") with
  | none => exact hinv
  | some actionValue =>
    by_cases h1 : toLowerCase actionValue = txt "on"
    · simp only [h1, if_true]
      exact setAllRelays_invariant s true hinv
    by_cases h2 : toLowerCase actionValue = txt "off"
    · simp only [h1, h2, if_true, if_false]
      exact setAllRelays_invariant s false hinv
    · simp only [h1, h2, if_false]
      exact hinv

/-- Every event keeps the invariant. -/
theorem step_invariant (dj : Decoder) (s : Device) (e : Event)
    (hinv : pinsAgree s ∧ configurationKept s) :
    pinsAgree (step dj s e) ∧ configurationKept (step dj s e) := by
  cases e with
  | webSocket type info data =>
    cases type
    case WS_EVT_DATA => exact onWebSocketMessage_invariant dj s info data hinv
    all_goals exact hinv
  | getRoot => exact hinv
  | getInfo => exact hinv
  | getRelays => exact hinv
  | getRelay request => exact hinv
  | postRelayControl request => exact handleRelayControl_invariant s request hinv
  | postRelaysAll request => exact handleRelaysAll_invariant s request hinv

/-- The device that `setup` hands to the handlers satisfies the invariant. -/
theorem setup_invariant (s0 : Device) (hsetup : setup true bootDevice = some s0) :
    pinsAgree s0 ∧ configurationKept s0 := by
  have h : s0 = (List.range 3).foldl (fun (d : Device) (_ : Nat) => blinkOnce d)
      (digitalWrite ((List.finRange NUM_RELAYS).foldl initRelay bootDevice) statusLED LOW) := by
    have h2 := hsetup
    unfold setup at h2
    simp only [if_true] at h2
    exact (Option.some.inj h2).symm
  subst h
  unfold pinsAgree configurationKept
  decide

/-- C20: in every device state reached from the boot device through `setup` (with Wi-Fi
connected) and then any sequence of WebSocket events and HTTP requests, for every decoder,
the level last written to the pin of each relay is HIGH when its stored state is true and
LOW when it is false, and every relay keeps the pin, the name and the description of the
static configuration; the number of relays is fixed by the type of the array. -/
theorem state_pin_consistency (dj : Decoder) (events : List Event) (s0 : Device)
    (hsetup : setup true bootDevice = some s0) :
    (∀ i, lastWritten (run dj s0 events).pinWrites ((run dj s0 events).relays i).pin
        = some (if ((run dj s0 events).relays i).state then HIGH else LOW)) ∧
    (∀ i, ((run dj s0 events).relays i).pin = (configuredRelays i).pin ∧
      ((run dj s0 events).relays i).name = (configuredRelays i).name ∧
      ((run dj s0 events).relays i).description = (configuredRelays i).description) := by
  have hrun : ∀ (evs : List Event) (s : Device), pinsAgree s ∧ configurationKept s →
      pinsAgree (run dj s evs) ∧ configurationKept (run dj s evs) := by
    intro evs
    induction evs with
    | nil => exact fun s h => h
    | cons e rest ih =>
      intro s h
      exact ih _ (step_invariant dj s e h)
  exact hrun events s0 (setup_invariant s0 hsetup)

/-- Instance of C20: the sample run from the device `setup` produces. -/
theorem state_pin_consistency_witness :
    setup true bootDevice = some readyDevice ∧
    (∀ i, lastWritten (run flatJson readyDevice sampleEvents).pinWrites
        ((run flatJson readyDevice sampleEvents).relays i).pin
        = some (if ((run flatJson readyDevice sampleEvents).relays i).state
            then HIGH else LOW)) ∧
    (∀ i, ((run flatJson readyDevice sampleEvents).relays i).pin = (configuredRelays i).pin ∧
      ((run flatJson readyDevice sampleEvents).relays i).name = (configuredRelays i).name ∧
      ((run flatJson readyDevice sampleEvents).relays i).description
        = (configuredRelays i).description) :=
  ⟨rfl, state_pin_consistency flatJson sampleEvents readyDevice rfl⟩

end MagicHome
